import Mathlib

/-!
Shallow embedding of the Pixel USB Type-C HAL service (src/usb/usb/Usb.cpp).

The hardware sysfs store is modelled as a partial map from paths to string
contents, directory enumeration of /sys/class/typec as an optional dirent
list, and the feature flags, property reads and collaborator calls as fields
of an explicit environment. C++ out-of-bounds vector accesses and uncaught
std::stoi exceptions are modelled as `Option.none` (the computation aborts).
-/

namespace UsbHal

-- aidl Status values used by Usb.cpp.
inductive Status
  | SUCCESS
  | ERROR
  | NOT_SUPPORTED
  | UNRECOGNIZED_ROLE
deriving DecidableEq

inductive PortPowerRole
  | NONE
  | SOURCE
  | SINK
deriving DecidableEq

inductive PortDataRole
  | NONE
  | HOST
  | DEVICE
deriving DecidableEq

inductive PortMode
  | NONE
  | UFP
  | DFP
  | DRP
  | AUDIO_ACCESSORY
  | DEBUG_ACCESSORY
deriving DecidableEq

inductive ContaminantProtectionMode
  | NONE
  | FORCE_SINK
  | FORCE_SOURCE
  | FORCE_DISABLE
deriving DecidableEq

inductive ContaminantProtectionStatus
  | NONE
  | FORCE_SINK
  | FORCE_SOURCE
  | FORCE_DISABLE
  | DISABLED
deriving DecidableEq

inductive ContaminantDetectionStatus
  | NOT_SUPPORTED
  | DISABLED
  | NOT_DETECTED
  | DETECTED
deriving DecidableEq

inductive UsbDataStatus
  | UNKNOWN
  | ENABLED
  | DISABLED_OVERHEAT
  | DISABLED_CONTAMINANT
  | DISABLED_DOCK
  | DISABLED_FORCE
  | DISABLED_DEBUG
  | DISABLED_DOCK_HOST_MODE
  | DISABLED_DOCK_DEVICE_MODE
deriving DecidableEq

inductive PowerBrickStatus
  | UNKNOWN
  | CONNECTED
  | NOT_CONNECTED
deriving DecidableEq

inductive ComplianceWarning
  | OTHER
  | DEBUG_ACCESSORY
  | BC_1_2
  | MISSING_RP
  | INPUT_POWER_LIMITED
deriving DecidableEq

-- Discriminant of the aidl PortRole union.
inductive PortRoleTag
  | powerRole
  | dataRole
  | mode
deriving DecidableEq

-- The aidl PortRole union: one of three unrelated enumerations selected by a tag.
inductive PortRole
  | powerRole (v : PortPowerRole)
  | dataRole (v : PortDataRole)
  | mode (v : PortMode)
deriving DecidableEq

def PortRole.tag : PortRole → PortRoleTag
  | .powerRole _ => .powerRole
  | .dataRole _ => .dataRole
  | .mode _ => .mode

-- The aidl generated get<...> accessors abort the process when the active tag
-- does not match; that abort is modelled as `none`.
def PortRole.getPower : PortRole → Option PortPowerRole
  | .powerRole v => some v
  | _ => none

def PortRole.getData : PortRole → Option PortDataRole
  | .dataRole v => some v
  | _ => none

def PortRole.getMode : PortRole → Option PortMode
  | .mode v => some v
  | _ => none

-- aidl PortStatus with the fields Usb.cpp touches; field defaults follow the
-- aidl value-type defaults (first enumerator, empty lists).
structure PortStatus where
  portName : String := ""
  currentPowerRole : PortPowerRole := .NONE
  currentDataRole : PortDataRole := .NONE
  currentMode : PortMode := .NONE
  canChangeMode : Bool := false
  canChangeDataRole : Bool := false
  canChangePowerRole : Bool := false
  supportedModes : List PortMode := []
  supportedContaminantProtectionModes : List ContaminantProtectionMode := []
  contaminantProtectionStatus : ContaminantProtectionStatus := .NONE
  contaminantDetectionStatus : ContaminantDetectionStatus := .NOT_SUPPORTED
  supportsEnableContaminantPresenceDetection : Bool := false
  supportsEnableContaminantPresenceProtection : Bool := false
  usbDataStatus : List UsbDataStatus := []
  powerTransferLimited : Bool := false
  powerBrickStatus : PowerBrickStatus := .UNKNOWN
  supportsComplianceWarnings : Bool := false
  complianceWarnings : List ComplianceWarning := []
deriving DecidableEq

-- ---------------------------------------------------------------------------
-- String helpers mirroring android::base and libc calls used by Usb.cpp.
-- ---------------------------------------------------------------------------

-- isspace characters removed by android::base::Trim.
def isSpaceChar (c : Char) : Bool :=
  c = ' ' || c = '\t' || c = '\n' || c = '\x0b' || c = '\x0c' || c = '\r'

def trim (s : String) : String :=
  String.mk (((s.data.dropWhile isSpaceChar).reverse.dropWhile isSpaceChar).reverse)

-- extractRole (Usb.cpp): take the substring strictly between the first "[" and
-- the first "]" when both occur.  When "]" occurs before "[", the size_t count
-- last-first-1 wraps around and std::string::substr clamps it, yielding the
-- whole remainder after "[": the `take` bound models that clamp.
def extractRole (roleName : String) : String :=
  let cs := roleName.data
  match cs.indexOf? '[', cs.indexOf? ']' with
  | some first, some last =>
      String.mk ((cs.drop (first + 1)).take
        (if last < first + 1 then cs.length else last - first - 1))
  | _, _ => roleName

-- Delimiters of android::base::Tokenize as called in
-- queryNonCompliantChargerStatus; the C string literal ends at its first NUL.
def tokenDelims : List Char := ['[', ']', ',', ' ', '\n']

def tokenizeAux : List Char → List Char → List String
  | [], acc => if acc.isEmpty then [] else [String.mk acc.reverse]
  | c :: rest, acc =>
    if tokenDelims.contains c then
      if acc.isEmpty then tokenizeAux rest []
      else String.mk acc.reverse :: tokenizeAux rest []
    else tokenizeAux rest (c :: acc)

-- android::base::Tokenize: split on any delimiter, dropping empty tokens.
def tokenize (s : String) : List String :=
  tokenizeAux s.data []

-- std::stoi on an already-trimmed string: optional sign then a non-empty digit
-- run; `none` models the std::invalid_argument exception (uncaught in Usb.cpp,
-- hence process abort at the call sites).
def stoiOpt (s : String) : Option Int :=
  let (sign, cs) : Int × List Char :=
    match s.data with
    | '-' :: r => (-1, r)
    | '+' :: r => (1, r)
    | r => (1, r)
  let ds := cs.takeWhile Char.isDigit
  if ds.isEmpty then none
  else some (sign * (ds.foldl (fun n c => n * 10 + (c.toNat - 48)) 0 : Nat))

-- strncmp(s, key, strlen(key)) == 0, i.e. key is a prefix of s.
def strHasPref (key s : String) : Bool :=
  key.data.isPrefixOf s.data

-- strstr(s, pat) != NULL, i.e. pat occurs somewhere in s.
def strHasSub (pat : String) : List Char → Bool
  | [] => pat.data.isEmpty
  | c :: rest => pat.data.isPrefixOf (c :: rest) || strHasSub pat rest

-- strtok(name, "-"): skip leading delimiters, then the run up to the next one.
def firstTok (s : String) : String :=
  String.mk ((s.data.dropWhile (fun c => c = '-')).takeWhile (fun c => c ≠ '-'))

-- ---------------------------------------------------------------------------
-- Environment and process state.
-- ---------------------------------------------------------------------------

-- One wakeup of the pthread_cond_timedwait in switchMode: either the wait
-- timed out, or it was signalled and observed the current value of mPartnerUp.
inductive Wake
  | timedOut
  | signaled (partnerUp : Bool)
deriving DecidableEq

-- The environment supplied by the platform: sysfs contents, write outcomes,
-- the /sys/class/typec dirent listing (none: opendir failed), feature flags
-- and collaborator results.  `fs` maps a path to its contents (`none`: the
-- file cannot be opened for reading).
structure Env where
  fs : String → Option String
  -- WriteStringToFile success per path.
  writeOk : String → Bool
  -- fopen(path, "w") success per path.
  openOk : String → Bool
  -- fputs return code per path (EOF = -1 means failure).
  putsRet : String → Int
  -- readdir entries of /sys/class/typec: (d_name, d_type == DT_LNK).
  typecListing : Option (List (String × Bool))
  -- opendir success for arbitrary directories (partner-presence probes).
  dirExists : String → Bool
  -- Result of getI2cClientPath ("" means lookup failure).
  i2cLookup : String
  -- UsbDataSessionMonitor::getComplianceWarnings keyed by current data role.
  sessionWarnings : PortDataRole → List ComplianceWarning
  -- usb_flags::enable_usb_data_compliance_warning().
  flagDataComplianceWarning : Bool
  -- usb_flags::enable_input_power_limited_warning().
  flagInputPowerLimitedWarning : Bool
  -- GetProperty(kDisableContatminantDetection, "").
  propContaminantDisable : String
  -- open(KPogoMoveDataToUsb, O_RDONLY) succeeds.
  pogoMoveNodeExists : Bool

-- Mutable process state of the service (members of struct Usb plus the
-- file-scope global enabledPath).
structure UsbState where
  mPartnerUp : Bool := false
  mUsbDataEnabled : Bool := true
  -- mCallback != NULL (a subscriber is registered).
  mCallback : Bool := false
  mI2cClientPath : String := ""
  enabledPath : String := ""
  -- number of pthread_cond_signal calls on mPartnerCV so far.
  partnerSignals : Nat := 0
deriving DecidableEq

-- Calls made on the registered IUsbCallback.
inductive Notif
  | enableUsbDataStatus (port : String) (enable : Bool) (st : Status) (tid : Int)
  | enableUsbDataWhileDockedStatus (port : String) (st : Status) (tid : Int)
  | resetUsbPortStatus (port : String) (st : Status) (tid : Int)
  | roleSwitchStatus (port : String) (role : PortRole) (st : Status) (tid : Int)
  | limitPowerTransferStatus (port : String) (limit : Bool) (st : Status) (tid : Int)
  | queryPortStatusNotif (port : String) (st : Status) (tid : Int)
  | contaminantEnabledStatus (port : String) (enable : Bool) (st : Status) (tid : Int)
  | portStatusChange (ports : List PortStatus) (st : Status)
deriving DecidableEq

def isLimitPowerTransferNotif : Notif → Bool
  | .limitPowerTransferStatus _ _ _ _ => true
  | _ => false

-- Result of one caller-initiated operation: new state, new environment (file
-- writes), callback invocations in order, and whether the operation ran into
-- modelled undefined behaviour (out-of-bounds access / uncaught exception)
-- before returning.
structure OpOut where
  usb : UsbState
  env : Env
  notifs : List Notif
  aborted : Bool

-- ---------------------------------------------------------------------------
-- Path constants (Usb.cpp).
-- ---------------------------------------------------------------------------

def kTypecPath : String := "/sys/class/typec"
def kComplianceWarningsPath : String := "device/non_compliant_reasons"
def kComplianceWarningBC12 : String := "bc12"
def kComplianceWarningDebugAccessory : String := "debug-accessory"
def kComplianceWarningMissingRp : String := "missing_rp"
def kComplianceWarningOther : String := "other"
def kComplianceWarningInputPowerLimited : String := "input_power_limited"
def kContaminantDetectionPath : String := "contaminant_detection"
def kStatusPath : String := "contaminant_detection_status"
def kSinkLimitEnable : String := "usb_limit_sink_enable"
def kSourceLimitEnable : String := "usb_limit_source_enable"
def kSinkLimitCurrent : String := "usb_limit_sink_current"
def kPogoUsbActive : String := "/sys/devices/platform/google,pogo/pogo_usb_active"
def KPogoMoveDataToUsb : String := "/sys/devices/platform/google,pogo/move_data_to_usb"
def kPowerSupplyUsbType : String := "/sys/class/power_supply/usb/usb_type"
def kOverheatStatsPath : String := "/sys/devices/platform/google,usbc_port_cooling_dev/"

-- Modelled from the spec: the gadget pull-up, host-mode ID pin, VBUS and
-- connection-notification node paths and the gadget name are macros of the
-- repository's Usb.h header, which is not among the provided sources; the
-- spec describes them only as the "pull-up control, host-mode ID pin, VBUS,
-- notification node".  Their concrete values are irrelevant to the claims,
-- so they are kept as distinct symbolic paths.
def PULLUP_PATH : String := "PULLUP_PATH"
def ID_PATH : String := "ID_PATH"
def VBUS_PATH : String := "VBUS_PATH"
def USB_DATA_PATH : String := "USB_DATA_PATH"
def kGadgetName : String := "kGadgetName"

-- ---------------------------------------------------------------------------
-- File write primitives.
-- ---------------------------------------------------------------------------

-- WriteStringToFile: on success the file holds the written value.
def writeFile (env : Env) (v p : String) : Env × Bool :=
  if env.writeOk p then
    ({ env with fs := fun q => if q = p then some v else env.fs q }, true)
  else (env, false)

-- fopen(p, "w") followed by fputs(v) and fclose: opening with "w" truncates,
-- so a failed fputs leaves the file empty.  Returns the fputs code (-1 when
-- the open itself failed; callers that distinguish open failure test openOk).
def fputsFile (env : Env) (v p : String) : Env × Int :=
  if env.openOk p then
    let ret := env.putsRet p
    ({ env with fs := fun q => if q = p then some (if ret = -1 then "" else v) else env.fs q },
     ret)
  else (env, -1)

-- ---------------------------------------------------------------------------
-- RoleSwitchCoordinator (switchRole / switchMode / switchToDrp).
-- ---------------------------------------------------------------------------

-- appendRoleNodeHelper (Usb.cpp): hardware node for a role kind.  The C++
-- default branch returning "" is unreachable for the three declared tag
-- values (the aidl parcel reader rejects any other tag), but the callers'
-- emptiness checks are kept.
def appendRoleNodeHelper (portName : String) (tag : PortRoleTag) : String :=
  let node := "/sys/class/typec/" ++ portName
  match tag with
  | .dataRole => node ++ "/data_role"
  | .powerRole => node ++ "/power_role"
  | .mode => node ++ "/port_type"

def convertRoletoString (role : PortRole) : String :=
  match role with
  | .powerRole v =>
    if v = PortPowerRole.SOURCE then "source"
    else if v = PortPowerRole.SINK then "sink"
    else "none"
  | .dataRole v =>
    if v = PortDataRole.HOST then "host"
    else if v = PortDataRole.DEVICE then "device"
    else "none"
  | .mode v =>
    if v = PortMode.UFP then "sink"
    else if v = PortMode.DFP then "source"
    else "none"

-- The wait_again loop of switchMode.  `now` is the CLOCK_MONOTONIC time (in
-- seconds) when the loop entry point is reached, `T` the PORT_TYPE_TIMEOUT
-- design constant (defined in the repository's Usb.h header, not among the
-- provided sources; it stays a parameter), and `wakes` the successive
-- wakeups of pthread_cond_timedwait, each carrying its wall time.  At each
-- entry of the loop the code runs clock_gettime and arms the wait with the
-- absolute deadline now + T; the returned list records every deadline armed,
-- in order, and the Bool is the resulting roleSwitch value: false on timeout,
-- true when a signal is observed with mPartnerUp set, and a spurious signal
-- (mPartnerUp still false) re-enters the loop at the wake's time.  An
-- exhausted wake list behaves like a timeout (the wait cannot return without
-- a wake).
def modeWaitAux (T : Nat) : Nat → List (Nat × Wake) → List Nat × Bool
  | now, [] => ([now + T], false)
  | now, (_, Wake.timedOut) :: _ => ([now + T], false)
  | now, (_, Wake.signaled true) :: _ => ([now + T], true)
  | now, (t, Wake.signaled false) :: rest =>
    let r := modeWaitAux T t rest
    ((now + T) :: r.1, r.2)

-- switchToDrp: best-effort write of the default dual-role mode "dual" to the
-- port's port_type node; errors are only logged.
def switchToDrp (env : Env) (portName : String) : Env :=
  let filename := appendRoleNodeHelper portName PortRoleTag.mode
  if filename = "" then env
  else if env.openOk filename then (fputsFile env "dual" filename).1
  else env

-- switchMode: clear mPartnerUp, write the requested mode, wait (bounded) for
-- the partner-added signal, and on any failure fall back to switchToDrp.
-- Returns (roleSwitch, state, environment).  The final mPartnerUp is the
-- flag value observed when the wait ended.
def switchMode (usb : UsbState) (env : Env) (wakes : List (Nat × Wake)) (now T : Nat)
    (portName : String) (role : PortRole) : Bool × UsbState × Env :=
  let filename := appendRoleNodeHelper portName role.tag
  if filename = "" then (false, usb, env)
  else
    let step : Bool × UsbState × Env :=
      if env.openOk filename then
        let usb0 := { usb with mPartnerUp := false }
        let w := fputsFile env (convertRoletoString role) filename
        if w.2 ≠ -1 then
          let ok := (modeWaitAux T now wakes).2
          (ok, { usb0 with mPartnerUp := ok }, w.1)
        else (false, usb0, w.1)
      else (false, usb, env)
    if step.1 then step
    else (false, step.2.1, switchToDrp step.2.2 portName)

-- Usb::switchRole.  For a mode request it delegates to switchMode; otherwise
-- it writes the role string and validates it by reading the node back.  (The
-- C++ ret == EAGAIN retry re-runs fputs on the same stream; the modelled
-- per-path return code makes the retry return the identical code, so it is
-- absorbed here.)  The outcome is reported through the callback when one is
-- registered.  Returns (state, environment, notifications).
def switchRole (usb : UsbState) (env : Env) (wakes : List (Nat × Wake)) (now T : Nat)
    (port : String) (role : PortRole) (tid : Int) : UsbState × Env × List Notif :=
  let filename := appendRoleNodeHelper port role.tag
  if filename = "" then (usb, env, [])
  else
    let step : Bool × UsbState × Env :=
      if role.tag = PortRoleTag.mode then switchMode usb env wakes now T port role
      else
        if env.openOk filename then
          let w := fputsFile env (convertRoletoString role) filename
          if w.2 ≠ -1 then
            match w.1.fs filename with
            | some contents =>
              (decide (extractRole (trim contents) = convertRoletoString role), usb, w.1)
            | none => (false, usb, w.1)
          else (false, usb, w.1)
        else (false, usb, env)
    let notifs :=
      if step.2.1.mCallback then
        [Notif.roleSwitchStatus port role (if step.1 then Status.SUCCESS else Status.ERROR) tid]
      else []
    (step.2.1, step.2.2, notifs)

-- ---------------------------------------------------------------------------
-- StatusAggregator: per-port role resolution.
-- ---------------------------------------------------------------------------

-- getAccessoryConnected: read and trim the partner's accessory_mode node
-- (`none`: the read failed, mapped to Status::ERROR by the caller).
def getAccessoryConnected (env : Env) (portName : String) : Option String :=
  (env.fs ("/sys/class/typec/" ++ portName ++ "-partner/accessory_mode")).map trim

-- Node path and default value installed by getCurrentRoleHelper for each
-- requested tag; a mode query reads the data_role node.
def roleNodeAndDefault (portName : String) : PortRoleTag → String × PortRole
  | .powerRole => ("/sys/class/typec/" ++ portName ++ "/power_role", .powerRole PortPowerRole.NONE)
  | .dataRole => ("/sys/class/typec/" ++ portName ++ "/data_role", .dataRole PortDataRole.NONE)
  | .mode => ("/sys/class/typec/" ++ portName ++ "/data_role", .mode PortMode.NONE)

-- The chain of comparisons at the end of getCurrentRoleHelper.  Note that the
-- C++ set<powerRole>(...) calls switch the active member of the union
-- regardless of the requested tag.
def classifyRoleName (tag : PortRoleTag) (current : PortRole) (roleName : String) :
    Status × PortRole :=
  if roleName = "source" then (Status.SUCCESS, .powerRole PortPowerRole.SOURCE)
  else if roleName = "sink" then (Status.SUCCESS, .powerRole PortPowerRole.SINK)
  else if roleName = "host" then
    if tag = PortRoleTag.dataRole then (Status.SUCCESS, .dataRole PortDataRole.HOST)
    else (Status.SUCCESS, .mode PortMode.DFP)
  else if roleName = "device" then
    if tag = PortRoleTag.dataRole then (Status.SUCCESS, .dataRole PortDataRole.DEVICE)
    else (Status.SUCCESS, .mode PortMode.UFP)
  else if roleName = "none" then (Status.SUCCESS, current)
  else (Status.UNRECOGNIZED_ROLE, current)

-- getCurrentRoleHelper: default the role, return early when disconnected,
-- apply the accessory-mode override for mode queries, then read and classify
-- the role node.
def getCurrentRoleHelper (env : Env) (portName : String) (connected : Bool)
    (tag : PortRoleTag) : Status × PortRole :=
  let fd := roleNodeAndDefault portName tag
  if !connected then (Status.SUCCESS, fd.2)
  else
    let viaNode : Status × PortRole :=
      match env.fs fd.1 with
      | none => (Status.ERROR, fd.2)
      | some contents => classifyRoleName tag fd.2 (extractRole (trim contents))
    if tag = PortRoleTag.mode then
      match getAccessoryConnected env portName with
      | none => (Status.ERROR, fd.2)
      | some accessory =>
        if accessory = "analog_audio" then (Status.SUCCESS, .mode PortMode.AUDIO_ACCESSORY)
        else if accessory = "debug" then (Status.SUCCESS, .mode PortMode.DEBUG_ACCESSORY)
        else viaNode
    else viaNode

-- canSwitchRoleHelper: the partner advertises USB power delivery.
def canSwitchRoleHelper (env : Env) (portName : String) : Bool :=
  match env.fs ("/sys/class/typec/" ++ portName ++ "-partner/supports_usb_power_delivery") with
  | some s => trim s = "yes"
  | none => false

-- ---------------------------------------------------------------------------
-- StatusAggregator: topology enumeration (getTypeCPortNamesHelper).
-- ---------------------------------------------------------------------------

-- unordered_map::insert of (n, false) when absent.
def insertIfAbsent (names : List (String × Bool)) (n : String) : List (String × Bool) :=
  if names.any (fun p => p.1 = n) then names else names ++ [(n, false)]

-- names[n] = true: update in place, inserting when absent.
def setConnected (names : List (String × Bool)) (n : String) : List (String × Bool) :=
  if names.any (fun p => p.1 = n) then
    names.map (fun p => if p.1 = n then (p.1, true) else p)
  else names ++ [(n, true)]

-- getTypeCPortNamesHelper: each DT_LNK dirent whose name lacks "-partner" is
-- a port (initially disconnected); a "-partner" entry marks its base port
-- connected.  `none` (opendir failure) is fatal: Status::ERROR, names empty.
def getTypeCPortNamesHelper (listing : Option (List (String × Bool))) :
    Status × List (String × Bool) :=
  match listing with
  | none => (Status.ERROR, [])
  | some ents =>
    (Status.SUCCESS,
      ents.foldl
        (fun names ent =>
          if ent.2 then
            if strHasSub "-partner" ent.1.data then setConnected names (firstTok ent.1)
            else insertIfAbsent names ent.1
          else names)
        [])

-- ---------------------------------------------------------------------------
-- StatusAggregator: getPortStatusHelper per-port loop.
-- ---------------------------------------------------------------------------

-- Result of the loop body for one port: `abort` models the aidl union get
-- aborting on a tag mismatch, `fail` the goto done path (the partially
-- populated entry is kept in the resized vector), `ok` a fully populated
-- entry.
inductive PortRes
  | abort
  | fail (p : PortStatus)
  | ok (p : PortStatus)
deriving DecidableEq

-- Tail of the loop body after the three role queries succeeded (capability
-- flags, supported modes, usb data status, power brick status).  `connected`
-- is the port's connected flag; p4 already carries the roles.
def finishPort (usb : UsbState) (env : Env) (connected : Bool) (p4 : PortStatus) : PortRes :=
  let dockParsed : Option Bool :=
    match env.fs kPogoUsbActive with
    | some s => (stoiOpt (trim s)).map (fun k => k = 1)
    | none => some false
  match dockParsed with
  | none => PortRes.abort
  | some dock =>
    let ds1 := if dock then p4.usbDataStatus ++ [UsbDataStatus.DISABLED_DOCK_DEVICE_MODE]
               else p4.usbDataStatus
    let ds2 := if !usb.mUsbDataEnabled then ds1 ++ [UsbDataStatus.DISABLED_FORCE] else ds1
    let dataEnabled := !dock && usb.mUsbDataEnabled
    let ds3 := if dataEnabled then ds2 ++ [UsbDataStatus.ENABLED] else ds2
    let p5 := { p4 with usbDataStatus := ds3 }
    -- Power-brick merge; the usb_type read-failure branch only logs, leaving
    -- the field at its prior value.
    let brick :=
      if connected then
        if p5.currentPowerRole = PortPowerRole.SOURCE then PowerBrickStatus.NOT_CONNECTED
        else
          match env.fs kPowerSupplyUsbType with
          | some usbType =>
            if strHasSub "[D" usbType.data then PowerBrickStatus.CONNECTED
            else if strHasSub "[U" usbType.data then PowerBrickStatus.UNKNOWN
            else PowerBrickStatus.NOT_CONNECTED
          | none => p5.powerBrickStatus
      else PowerBrickStatus.NOT_CONNECTED
    PortRes.ok { p5 with powerBrickStatus := brick }

-- The loop body of getPortStatusHelper for one (portName, connected) pair:
-- power role, data role and mode queries in order, each goto done on a
-- non-SUCCESS status, then finishPort.
def processOnePort (usb : UsbState) (env : Env) (nm : String × Bool) : PortRes :=
  let p0 : PortStatus := { portName := nm.1 }
  match getCurrentRoleHelper env nm.1 nm.2 PortRoleTag.powerRole with
  | (Status.SUCCESS, role1) =>
    match role1.getPower with
    | none => PortRes.abort
    | some pr =>
      let p1 := { p0 with currentPowerRole := pr }
      match getCurrentRoleHelper env nm.1 nm.2 PortRoleTag.dataRole with
      | (Status.SUCCESS, role2) =>
        match role2.getData with
        | none => PortRes.abort
        | some dr =>
          let p2 := { p1 with currentDataRole := dr }
          match getCurrentRoleHelper env nm.1 nm.2 PortRoleTag.mode with
          | (Status.SUCCESS, role3) =>
            match role3.getMode with
            | none => PortRes.abort
            | some md =>
              let p3 := { p2 with currentMode := md }
              let can := if nm.2 then canSwitchRoleHelper env nm.1 else false
              let p4 := { p3 with
                canChangeMode := true
                canChangeDataRole := can
                canChangePowerRole := can
                supportedModes := p3.supportedModes ++ [PortMode.DRP] }
              finishPort usb env nm.2 p4
          | (_, _) => PortRes.fail p2
      | (_, _) => PortRes.fail p1
  | (_, _) => PortRes.fail p0

-- Result of running the loop over the whole enumeration.
inductive PortsRes
  | abort
  | fail (ps : List PortStatus)
  | ok (ps : List PortStatus)
deriving DecidableEq

def portsLoop (usb : UsbState) (env : Env) : List (String × Bool) → PortsRes
  | [] => PortsRes.ok []
  | nm :: rest =>
    match processOnePort usb env nm with
    | PortRes.abort => PortsRes.abort
    | PortRes.fail p => PortsRes.fail [p]
    | PortRes.ok p =>
      match portsLoop usb env rest with
      | PortsRes.abort => PortsRes.abort
      | PortsRes.fail ps => PortsRes.fail (p :: ps)
      | PortsRes.ok ps => PortsRes.ok (p :: ps)

-- getPortStatusHelper: enumerate the topology (fatal on failure, the in-out
-- vector is left as passed in), resize the vector to the port count and run
-- the loop; the goto done path returns ERROR with the entries processed so
-- far ahead of default-initialized entries from the resize.  `none` models a
-- reached union-get abort.
def getPortStatusHelper (usb : UsbState) (env : Env) (input : List PortStatus) :
    Option (Status × List PortStatus) :=
  match getTypeCPortNamesHelper env.typecListing with
  | (Status.SUCCESS, names) =>
    match portsLoop usb env names with
    | PortsRes.abort => none
    | PortsRes.fail ps =>
      some (Status.ERROR, ps ++ List.replicate (names.length - ps.length) {})
    | PortsRes.ok ps => some (Status.SUCCESS, ps)
  | (_, _) => some (Status.ERROR, input)

-- ---------------------------------------------------------------------------
-- StatusAggregator: sub-queries merged into the snapshot.
-- ---------------------------------------------------------------------------

-- The shared mI2cClientPath memoization: when empty, run getI2cClientPath and
-- store its result; the Bool is false when the path is still empty.
def resolveI2c (usb : UsbState) (env : Env) : UsbState × Bool :=
  if usb.mI2cClientPath = "" then
    ({ usb with mI2cClientPath := env.i2cLookup }, !(env.i2cLookup = ""))
  else (usb, true)

-- queryMoistureDetectionStatus: populates contaminant fields of entry 0
-- (out-of-bounds, i.e. `none`, on an empty vector), resolves the i2c path,
-- stores the file-scope enabledPath global, and reads the detection nodes.
def queryMoistureDetectionStatus (usb : UsbState) (env : Env) (ports : List PortStatus) :
    Option (Status × UsbState × List PortStatus) :=
  match ports with
  | [] => none
  | p0 :: rest =>
    let p0 := { p0 with
      supportedContaminantProtectionModes :=
        p0.supportedContaminantProtectionModes ++ [ContaminantProtectionMode.FORCE_DISABLE]
      contaminantProtectionStatus := ContaminantProtectionStatus.NONE
      contaminantDetectionStatus := ContaminantDetectionStatus.DISABLED
      supportsEnableContaminantPresenceDetection := true
      supportsEnableContaminantPresenceProtection := false }
    let r := resolveI2c usb env
    if !r.2 then some (Status.ERROR, r.1, p0 :: rest)
    else
      let usb1 := { r.1 with enabledPath := r.1.mI2cClientPath ++ kContaminantDetectionPath }
      match env.fs usb1.enabledPath with
      | none => some (Status.ERROR, usb1, p0 :: rest)
      | some enabled =>
        if trim enabled = "1" then
          match env.fs (usb1.mI2cClientPath ++ kStatusPath) with
          | none => some (Status.ERROR, usb1, p0 :: rest)
          | some st =>
            if trim st = "1" then
              some (Status.SUCCESS, usb1,
                { p0 with
                  contaminantDetectionStatus := ContaminantDetectionStatus.DETECTED
                  contaminantProtectionStatus := ContaminantProtectionStatus.FORCE_DISABLE }
                :: rest)
            else
              some (Status.SUCCESS, usb1,
                { p0 with contaminantDetectionStatus := ContaminantDetectionStatus.NOT_DETECTED }
                :: rest)
        else some (Status.SUCCESS, usb1, p0 :: rest)

-- queryPowerTransferStatus: reflect the sink-limit-enable node into entry 0
-- (the index-0 store happens only after a successful read).
def queryPowerTransferStatus (usb : UsbState) (env : Env) (ports : List PortStatus) :
    Option (Status × UsbState × List PortStatus) :=
  let r := resolveI2c usb env
  if !r.2 then some (Status.ERROR, r.1, ports)
  else
    match env.fs (r.1.mI2cClientPath ++ kSinkLimitEnable) with
    | none => some (Status.ERROR, r.1, ports)
    | some enabled =>
      match ports with
      | [] => none
      | p0 :: rest =>
        some (Status.SUCCESS, r.1,
          { p0 with powerTransferLimited := trim enabled = "1" } :: rest)

-- The if/continue cascade classifying one token of the warnings file.  The
-- other / input_power_limited branch reports INPUT_POWER_LIMITED only when
-- both feature flags are enabled.
def warningOf (bothFlags : Bool) (reason : String) : Option ComplianceWarning :=
  if strHasPref kComplianceWarningDebugAccessory reason then
    some ComplianceWarning.DEBUG_ACCESSORY
  else if strHasPref kComplianceWarningBC12 reason then
    some ComplianceWarning.BC_1_2
  else if strHasPref kComplianceWarningMissingRp reason then
    some ComplianceWarning.MISSING_RP
  else if strHasPref kComplianceWarningOther reason ||
          strHasPref kComplianceWarningInputPowerLimited reason then
    if bothFlags then some ComplianceWarning.INPUT_POWER_LIMITED
    else some ComplianceWarning.OTHER
  else none

def compliancePathOf (portName : String) : String :=
  kTypecPath ++ "/" ++ portName ++ "/" ++ kComplianceWarningsPath

-- Body of the queryNonCompliantChargerStatus loop for one port: mark
-- compliance-warning support, read and tokenize the warnings file, push the
-- classified warnings, and synthesize a connected-sink state when warnings
-- are present while the detected power role is NONE.
def queryNonCompliantChargerStatusPort (env : Env) (p : PortStatus) : PortStatus :=
  let p := { p with supportsComplianceWarnings := true }
  match env.fs (compliancePathOf p.portName) with
  | none => p
  | some reasons =>
    let ws := (tokenize reasons).filterMap
      (warningOf (env.flagDataComplianceWarning && env.flagInputPowerLimitedWarning))
    let p := { p with complianceWarnings := p.complianceWarnings ++ ws }
    if 0 < p.complianceWarnings.length ∧ p.currentPowerRole = PortPowerRole.NONE then
      { p with
        currentMode := PortMode.UFP
        currentPowerRole := PortPowerRole.SINK
        currentDataRole := PortDataRole.NONE
        powerBrickStatus := PowerBrickStatus.CONNECTED }
    else p

def queryNonCompliantChargerStatus (env : Env) (ports : List PortStatus) :
    Status × List PortStatus :=
  (Status.SUCCESS, ports.map (queryNonCompliantChargerStatusPort env))

-- queryUsbDataSession: append the session monitor's warnings (keyed by entry
-- 0's data role) to entry 0 (out-of-bounds on an empty vector).  The monitor
-- itself lives on the Usb object; its answer is modelled in Env.
def queryUsbDataSession (_usb : UsbState) (env : Env) (ports : List PortStatus) :
    Option (List PortStatus) :=
  match ports with
  | [] => none
  | p0 :: rest =>
    some ({ p0 with
      complianceWarnings := p0.complianceWarnings ++ env.sessionWarnings p0.currentDataRole }
      :: rest)

-- queryVersionHelper: the snapshot computation under the global status lock.
-- The statuses of the sub-queries are discarded (as in the C++, which ignores
-- their return values); only the topology/role status from
-- getPortStatusHelper is delivered with the snapshot.  `none` models a
-- reached out-of-bounds access or uncaught exception.
def queryVersionHelper (usb : UsbState) (env : Env) (input : List PortStatus) :
    Option (UsbState × Status × List PortStatus × List Notif) :=
  match getPortStatusHelper usb env input with
  | none => none
  | some (st, ps1) =>
    match queryMoistureDetectionStatus usb env ps1 with
    | none => none
    | some (_, usb1, ps2) =>
      match queryPowerTransferStatus usb1 env ps2 with
      | none => none
      | some (_, usb2, ps3) =>
        let ps4 := (queryNonCompliantChargerStatus env ps3).2
        match queryUsbDataSession usb2 env ps4 with
        | none => none
        | some ps5 =>
          let notifs := if usb2.mCallback then [Notif.portStatusChange ps5 st] else []
          some (usb2, st, ps5, notifs)

-- ---------------------------------------------------------------------------
-- Caller-initiated operations.
-- ---------------------------------------------------------------------------

-- The queryVersionHelper call that ends most operations; every call site
-- passes a fresh empty vector.  Earlier notifications survive an abort.
def runStatusQuery (usb : UsbState) (env : Env) (notifs : List Notif) : OpOut :=
  match queryVersionHelper usb env [] with
  | none => { usb := usb, env := env, notifs := notifs, aborted := true }
  | some (usb2, _, _, qn) =>
    { usb := usb2, env := env, notifs := notifs ++ qn, aborted := false }

-- Usb::enableUsbData: node writes (any sub-write failure makes the overall
-- result ERROR but the remaining writes are still attempted), flag update on
-- success, per-operation notification, then a full status recomputation.
def enableUsbData (usb : UsbState) (env : Env) (port : String) (enable : Bool) (tid : Int) :
    OpOut :=
  let step : Env × Bool :=
    if enable then
      if !usb.mUsbDataEnabled then
        let a : Env × Bool :=
          match env.fs PULLUP_PATH with
          | some pullup =>
            if trim pullup ≠ kGadgetName then writeFile env kGadgetName PULLUP_PATH
            else (env, true)
          | none => (env, true)
        let b := writeFile a.1 "1" USB_DATA_PATH
        (b.1, a.2 && b.2)
      else (env, true)
    else
      let a : Env × Bool :=
        match env.fs PULLUP_PATH with
        | some pullup =>
          if trim pullup = kGadgetName then writeFile env "none" PULLUP_PATH
          else (env, true)
        | none => (env, true)
      let b := writeFile a.1 "1" ID_PATH
      let c := writeFile b.1 "0" VBUS_PATH
      let d := writeFile c.1 "0" USB_DATA_PATH
      (d.1, a.2 && b.2 && c.2 && d.2)
  let usb1 := if step.2 then { usb with mUsbDataEnabled := enable } else usb
  let notifs :=
    if usb1.mCallback then
      [Notif.enableUsbDataStatus port enable
        (if step.2 then Status.SUCCESS else Status.ERROR) tid]
    else []
  runStatusQuery usb1 step.1 notifs

-- Usb::enableUsbDataWhileDocked: NOT_SUPPORTED when the pogo control node
-- cannot be opened, otherwise write it.
def enableUsbDataWhileDocked (usb : UsbState) (env : Env) (port : String) (tid : Int) :
    OpOut :=
  let step : Env × Bool × Bool :=
    if env.pogoMoveNodeExists then
      let w := writeFile env "1" KPogoMoveDataToUsb
      (w.1, w.2, false)
    else (env, true, true)
  let st :=
    if step.2.2 then Status.NOT_SUPPORTED
    else if step.2.1 then Status.SUCCESS else Status.ERROR
  let notifs := if usb.mCallback then [Notif.enableUsbDataWhileDockedStatus port st tid] else []
  runStatusQuery usb step.1 notifs

-- Usb::resetUsbPort: force-clear the pull-up node; no status recomputation.
def resetUsbPort (usb : UsbState) (env : Env) (port : String) (tid : Int) : OpOut :=
  let w := writeFile env "none" PULLUP_PATH
  let notifs :=
    if usb.mCallback then
      [Notif.resetUsbPortStatus port (if w.2 then Status.SUCCESS else Status.ERROR) tid]
    else []
  { usb := usb, env := w.1, notifs := notifs, aborted := false }

-- Usb::limitPowerTransfer: returns early (no notification, no recomputation)
-- when the i2c client path cannot be resolved; otherwise performs the three
-- limit writes and notifies only when a callback is set AND the transaction
-- id is non-negative.
def limitPowerTransfer (usb : UsbState) (env : Env) (port : String) (limit : Bool) (tid : Int) :
    OpOut :=
  let r := resolveI2c usb env
  if !r.2 then { usb := r.1, env := env, notifs := [], aborted := false }
  else
    let usb1 := r.1
    let sinkLimitEnablePath := usb1.mI2cClientPath ++ kSinkLimitEnable
    let currentLimitPath := usb1.mI2cClientPath ++ kSinkLimitCurrent
    let sourceLimitEnablePath := usb1.mI2cClientPath ++ kSourceLimitEnable
    let a : Env × Bool :=
      if limit then
        let w := writeFile env "0" currentLimitPath
        (w.1, !w.2)
      else (env, false)
    let b := writeFile a.1 (if limit then "1" else "0") sinkLimitEnablePath
    let c := writeFile b.1 (if limit then "1" else "0") sourceLimitEnablePath
    let sessionFail := a.2 || !b.2 || !c.2
    let notifs :=
      if usb1.mCallback && decide (0 ≤ tid) then
        [Notif.limitPowerTransferStatus port limit
          (if sessionFail then Status.ERROR else Status.SUCCESS) tid]
      else []
    runStatusQuery usb1 c.1 notifs

-- Usb::enableContaminantPresenceDetection: write the detection-enable node
-- (the file-scope enabledPath global set by the moisture query) unless
-- globally disabled by the system property.
def enableContaminantPresenceDetection (usb : UsbState) (env : Env) (port : String)
    (enable : Bool) (tid : Int) : OpOut :=
  let step : Env × Bool :=
    if env.propContaminantDisable ≠ "true" then
      writeFile env (if enable then "1" else "0") usb.enabledPath
    else (env, true)
  let notifs :=
    if usb.mCallback then
      [Notif.contaminantEnabledStatus port enable
        (if step.2 then Status.SUCCESS else Status.ERROR) tid]
    else []
  runStatusQuery usb step.1 notifs

-- Usb::queryPortStatus: recompute first, then correlate the transaction as
-- SUCCESS ("all" ports).  An abort inside the recomputation prevents the
-- per-operation notification.
def queryPortStatusOp (usb : UsbState) (env : Env) (tid : Int) : OpOut :=
  match queryVersionHelper usb env [] with
  | none => { usb := usb, env := env, notifs := [], aborted := true }
  | some (usb2, _, _, qn) =>
    let n2 := if usb2.mCallback then [Notif.queryPortStatusNotif "all" Status.SUCCESS tid] else []
    { usb := usb2, env := env, notifs := qn ++ n2, aborted := false }

-- ---------------------------------------------------------------------------
-- EventDispatchLoop: uevent_event record classification.
-- ---------------------------------------------------------------------------

-- std::regex_match(cp, regex("(add)(.*)(-partner)")): the whole segment is
-- "add", then characters other than line terminators, then "-partner".
def isPartnerAddSegment (s : String) : Bool :=
  let cs := s.data
  "add".data.isPrefixOf cs && "-partner".data.isSuffixOf cs && decide (11 ≤ cs.length) &&
    ((cs.drop 3).take (cs.length - 11)).all (fun c => c ≠ '\n' && c ≠ '\r')

-- The typec / power-supply prefixes that trigger a full recomputation.
def isTypecRelatedSegment (s : String) : Bool :=
  strHasPref "DEVTYPE=typec_" s || strHasPref "DRIVER=max77759tcpc" s ||
    strHasPref "DRIVER=pogo-transport" s || strHasPref "POWER_SUPPLY_NAME=usb" s

def isOverheatSegment (s : String) : Bool :=
  strHasPref "DRIVER=google,usbc_port_cooling_dev" s

-- report_overheat_event: read the three duration metrics, aborting the
-- emission (without side effects) if any is unreadable; `none` models an
-- uncaught std::stoi exception; the Bool tells whether telemetry was emitted.
def reportOverheatEvent (env : Env) : Option Bool :=
  match env.fs (kOverheatStatsPath ++ "trip_time") with
  | none => some false
  | some c1 =>
    match stoiOpt (trim c1) with
    | none => none
    | some _ =>
      match env.fs (kOverheatStatsPath ++ "hysteresis_time") with
      | none => some false
      | some c2 =>
        match stoiOpt (trim c2) with
        | none => none
        | some _ =>
          match env.fs (kOverheatStatsPath ++ "cleared_time") with
          | none => some false
          | some c3 =>
            match stoiOpt (trim c3) with
            | none => none
            | some _ => some true

-- Effect of classifying one uevent segment.
structure SegOut where
  usb : UsbState
  env : Env
  notifs : List Notif
  -- a full status recomputation was triggered by this segment
  recomputed : Bool
  aborted : Bool
  -- the typec branch ends the message scan with break
  stop : Bool

-- uevent_event, one NUL-separated segment.  `roleSwitchFree` is whether
-- pthread_mutex_trylock(mRoleSwitchLock) succeeds (no role switch in
-- flight); in that case every port without a partner directory is forced
-- back to DRP.
def processSegment (usb : UsbState) (env : Env) (roleSwitchFree : Bool) (s : String) : SegOut :=
  if isPartnerAddSegment s then
    { usb := { usb with mPartnerUp := true, partnerSignals := usb.partnerSignals + 1 }
      env := env, notifs := [], recomputed := false, aborted := false, stop := false }
  else if isTypecRelatedSegment s then
    match queryVersionHelper usb env [] with
    | none =>
      { usb := usb, env := env, notifs := [], recomputed := true, aborted := true, stop := true }
    | some (usb2, _, ps, qn) =>
      let env2 :=
        if roleSwitchFree then
          ps.foldl
            (fun e p =>
              if e.dirExists ("/sys/class/typec/" ++ p.portName ++ "-partner") then e
              else switchToDrp e p.portName)
            env
        else env
      { usb := usb2, env := env2, notifs := qn, recomputed := true, aborted := false, stop := true }
  else if isOverheatSegment s then
    match reportOverheatEvent env with
    | none =>
      { usb := usb, env := env, notifs := [], recomputed := false, aborted := true, stop := false }
    | some _ =>
      { usb := usb, env := env, notifs := [], recomputed := false, aborted := false, stop := false }
  else
    { usb := usb, env := env, notifs := [], recomputed := false, aborted := false, stop := false }

-- ---------------------------------------------------------------------------
-- Per-operation notification predicates.
-- ---------------------------------------------------------------------------

def isRoleSwitchNotif : Notif → Bool
  | .roleSwitchStatus _ _ _ _ => true
  | _ => false

def isEnableUsbDataNotif : Notif → Bool
  | .enableUsbDataStatus _ _ _ _ => true
  | _ => false

def isEnableDockedNotif : Notif → Bool
  | .enableUsbDataWhileDockedStatus _ _ _ => true
  | _ => false

def isResetNotif : Notif → Bool
  | .resetUsbPortStatus _ _ _ => true
  | _ => false

def isQueryNotif : Notif → Bool
  | .queryPortStatusNotif _ _ _ => true
  | _ => false

def isContaminantNotif : Notif → Bool
  | .contaminantEnabledStatus _ _ _ _ => true
  | _ => false

-- ---------------------------------------------------------------------------
-- Concrete fixtures used by witnesses and counterexamples.
-- ---------------------------------------------------------------------------

instance : Inhabited PortStatus := ⟨{}⟩

def fsEmpty : String → Option String := fun _ => none

-- A benign environment: one disconnected port "port0", all writes succeed,
-- every read fails benignly, no i2c node, no flags.
def envG : Env :=
  { fs := fsEmpty
    writeOk := fun _ => true
    openOk := fun _ => true
    putsRet := fun _ => 1
    typecListing := some [("port0", true)]
    dirExists := fun _ => false
    i2cLookup := ""
    sessionWarnings := fun _ => []
    flagDataComplianceWarning := false
    flagInputPowerLimitedWarning := false
    propContaminantDisable := ""
    pogoMoveNodeExists := false }

def usbDef : UsbState := {}

-- Service state with a registered subscriber and a memoized i2c path.
def usbCB : UsbState :=
  { mPartnerUp := false, mUsbDataEnabled := true, mCallback := true,
    mI2cClientPath := "i2c/", enabledPath := "", partnerSignals := 0 }

def usbNoCB : UsbState := { usbCB with mCallback := false }

-- Environment for the C3 counterexample: topology enumerates a connected
-- port0 whose power_role node reports a string outside the vocabulary.
def env3 : Env :=
  { envG with
    fs := fun p => if p = "/sys/class/typec/port0/power_role" then some "[banana]" else none
    typecListing := some [("port0", true), ("port0-partner", true)] }

-- Environment whose /sys/class/typec cannot be opened (topology failure).
def envNone : Env := { envG with typecListing := none }

-- Environments for the compliance-warning tokenization claim.
def envC4a : Env :=
  { envG with
    fs := fun p => if p = compliancePathOf "port0" then some "[bc12], [missing_rp]" else none }

def envC4b : Env :=
  { envG with
    fs := fun p => if p = compliancePathOf "port0" then some "[other]" else none }

def envC4c : Env :=
  { envG with
    fs := fun p => if p = compliancePathOf "port0" then some "[input_power_limited]" else none
    flagDataComplianceWarning := true
    flagInputPowerLimitedWarning := true }

def portP0 : PortStatus := { portName := "port0" }

def portP0src : PortStatus := { portName := "port0", currentPowerRole := .SOURCE }

-- The operation pair of the C7 witness: a successful force-disable followed
-- immediately by a port status query against the same environment.
def opC7 : OpOut := queryPortStatusOp (enableUsbData usbCB envG "port0" false 0).usb envG 1

def psC7 : List PortStatus :=
  match opC7.notifs with
  | Notif.portStatusChange ps _ :: _ => ps
  | _ => []

def pC7 : PortStatus := psC7.headD {}

-- Environment for the C7 counterexample: port0 is connected (a partner
-- dirent exists) but every read fails, so the power_role sub-query of the
-- connected port takes the goto done path after a fully successful disable.
def envC7x : Env :=
  { envG with typecListing := some [("port0", true), ("port0-partner", true)] }

def opC7x : OpOut :=
  queryPortStatusOp (enableUsbData usbCB envC7x "port0" false 0).usb envC7x 1

def psC7x : List PortStatus :=
  match opC7x.notifs with
  | Notif.portStatusChange ps _ :: _ => ps
  | _ => []

def pC7x : PortStatus := psC7x.headD {}

-- ---------------------------------------------------------------------------
-- Helper lemmas.
-- ---------------------------------------------------------------------------

theorem aux_gpsh_topoFail (usb : UsbState) (env : Env) (h : env.typecListing = none) :
    getPortStatusHelper usb env [] = some (Status.ERROR, []) := by
  unfold getPortStatusHelper
  rw [h]
  rfl

theorem aux_qvh_topoFail (usb : UsbState) (env : Env) (h : env.typecListing = none) :
    queryVersionHelper usb env [] = none := by
  unfold queryVersionHelper
  rw [aux_gpsh_topoFail usb env h]
  rfl

-- The deadline armed at each loop entry is the entry time plus the timeout.
theorem aux_modeWait_head (T t : Nat) (l : List (Nat × Wake)) :
    (modeWaitAux T t l).1.head? = some (t + T) := by
  match l with
  | [] => rfl
  | (u, Wake.timedOut) :: _ => rfl
  | (u, Wake.signaled true) :: _ => rfl
  | (u, Wake.signaled false) :: rest => rfl

-- ---------------------------------------------------------------------------
-- C6.
-- ---------------------------------------------------------------------------

/-- C6: when topology enumeration fails (the /sys/class/typec directory
cannot be opened), getPortStatusHelper reports ERROR with an empty snapshot
and no port entry ever populated — but the snapshot computation then aborts
(modelled `none`): queryMoistureDetectionStatus dereferences index 0 of the
empty vector before any outcome can be delivered to the subscriber, so the
claimed ERROR delivery never happens.  This theorem exhibits the code's
actual behaviour at the claimed input. -/
theorem C6_topoFail_error_and_abort (usb : UsbState) (env : Env)
    (h : env.typecListing = none) :
    getPortStatusHelper usb env [] = some (Status.ERROR, []) ∧
    queryVersionHelper usb env [] = none :=
  ⟨aux_gpsh_topoFail usb env h, aux_qvh_topoFail usb env h⟩

theorem C6_topoFail_witness :
    getPortStatusHelper usbDef envNone [] = some (Status.ERROR, []) ∧
    queryVersionHelper usbDef envNone [] = none :=
  C6_topoFail_error_and_abort usbDef envNone (by rfl)

-- ---------------------------------------------------------------------------
-- C10.
-- ---------------------------------------------------------------------------

/-- C10: the index-0 accesses of the snapshot sub-queries ARE reached on the
empty port-status vector: when topology enumeration fails, the public
queryPortStatus entry point reaches queryMoistureDetectionStatus (and would
reach queryUsbDataSession) with the empty vector, whose unconditional
index-0 accesses are out of bounds — modelled as the abort `none` /
`aborted = true`. -/
theorem C10_oob_reached (usb : UsbState) (env : Env) (tid : Int)
    (h : env.typecListing = none) :
    (queryPortStatusOp usb env tid).aborted = true ∧
    queryMoistureDetectionStatus usb env [] = none ∧
    queryUsbDataSession usb env [] = none := by
  refine ⟨?_, rfl, rfl⟩
  unfold queryPortStatusOp
  rw [aux_qvh_topoFail usb env h]

theorem C10_oob_witness :
    (queryPortStatusOp usbDef envNone 7).aborted = true ∧
    queryMoistureDetectionStatus usbDef envNone [] = none ∧
    queryUsbDataSession usbDef envNone [] = none :=
  C10_oob_reached usbDef envNone 7 (by rfl)

-- ---------------------------------------------------------------------------
-- C2.
-- ---------------------------------------------------------------------------

/-- C2 counterexample: the claim that every deadline armed during the
mode-switch wait equals the single original deadline is false.  With timeout
5 and wait entry at time 0 the original deadline is 0 + 5; after a spurious
wake at time 3 the loop re-enters at the wait_again label, runs clock_gettime
again and arms 3 + 5 = 8 ≠ 5. -/
theorem C2_deadline_cex :
    (modeWaitAux 5 0 [(3, Wake.signaled false), (8, Wake.timedOut)]).1 =
      [0 + 5, 3 + 5] ∧
    ¬ (3 + 5 : Nat) = 0 + 5 := by
  decide

/-- C2 (amended): on a spurious wake at time t the loop re-enters wait_again
and arms a freshly computed deadline equal to t plus the full timeout — not
the original deadline — so any spurious wake after the wait began strictly
extends the deadline. -/
theorem C2_deadline_extended (T now t d : Nat) (rest : List (Nat × Wake))
    (h : now < t) (hd : (modeWaitAux T t rest).1.head? = some d) :
    (modeWaitAux T now ((t, Wake.signaled false) :: rest)).1 =
      (now + T) :: (modeWaitAux T t rest).1 ∧ now + T < d := by
  refine ⟨rfl, ?_⟩
  rw [aux_modeWait_head] at hd
  simp only [Option.some.injEq] at hd
  omega

theorem C2_deadline_extended_witness :
    (modeWaitAux 5 0 ((3, Wake.signaled false) :: [(8, Wake.timedOut)])).1 =
      (0 + 5) :: (modeWaitAux 5 3 [(8, Wake.timedOut)]).1 ∧ 0 + 5 < 8 :=
  C2_deadline_extended 5 0 3 8 [(8, Wake.timedOut)] (by decide) (by decide)

-- ---------------------------------------------------------------------------
-- C9.
-- ---------------------------------------------------------------------------

/-- C9: classifying a partner-attach uevent record sets the pending-wait
observed flag mPartnerUp, signals the condition variable once, and does
nothing else: no recomputation, no notification, no environment change, no
other state field touched. -/
theorem C9_partner_frame (usb : UsbState) (env : Env) (free : Bool) (s : String)
    (h : isPartnerAddSegment s = true) :
    processSegment usb env free s =
      { usb := { usb with mPartnerUp := true, partnerSignals := usb.partnerSignals + 1 }
        env := env, notifs := [], recomputed := false, aborted := false, stop := false } := by
  unfold processSegment
  rw [h]
  rfl

-- ---------------------------------------------------------------------------
-- C3.
-- ---------------------------------------------------------------------------

/-- C3 counterexample: a per-port role sub-query failure is NOT merely
field-degrading — it is fatal to the snapshot.  Concretely: topology
enumeration succeeds with the single connected port "port0", its power_role
node reads "[banana]" (outside the vocabulary, so the role query returns
UNRECOGNIZED_ROLE), and getPortStatusHelper aborts the whole computation
with ERROR even though topology enumeration succeeded. -/
theorem C3_role_failure_cex :
    getTypeCPortNamesHelper env3.typecListing = (Status.SUCCESS, [("port0", true)]) ∧
    (getCurrentRoleHelper env3 "port0" true PortRoleTag.powerRole).1 =
      Status.UNRECOGNIZED_ROLE ∧
    (getPortStatusHelper usbDef env3 []).map (fun x => x.1) = some Status.ERROR := by
  refine ⟨by decide, by decide, by decide⟩

/-- C3 (amended): a failure of a per-port role sub-query — an I/O failure
(ERROR) or an out-of-vocabulary role string (UNRECOGNIZED_ROLE) — aborts the
whole snapshot computation via the goto done path: getPortStatusHelper
returns the ERROR outcome exactly as it does for topology failure, leaving
the remaining ports unprocessed. -/
theorem C3_role_failure_fatal (usb : UsbState) (env : Env) (input : List PortStatus)
    (n : String) (c : Bool) (rest : List (String × Bool)) (st : Status) (r : PortRole)
    (htopo : getTypeCPortNamesHelper env.typecListing = (Status.SUCCESS, (n, c) :: rest))
    (hrole : getCurrentRoleHelper env n c PortRoleTag.powerRole = (st, r))
    (hne : st ≠ Status.SUCCESS) :
    (getPortStatusHelper usb env input).map (fun x => x.1) = some Status.ERROR := by
  cases st with
  | SUCCESS => exact absurd rfl hne
  | ERROR => simp [getPortStatusHelper, htopo, portsLoop, processOnePort, hrole]
  | NOT_SUPPORTED => simp [getPortStatusHelper, htopo, portsLoop, processOnePort, hrole]
  | UNRECOGNIZED_ROLE => simp [getPortStatusHelper, htopo, portsLoop, processOnePort, hrole]

theorem C3_role_failure_fatal_witness :
    (getPortStatusHelper usbDef env3 []).map (fun x => x.1) = some Status.ERROR :=
  C3_role_failure_fatal usbDef env3 [] "port0" true []
    Status.UNRECOGNIZED_ROLE (PortRole.powerRole PortPowerRole.NONE)
    (by decide) (by decide) (by decide)

-- ---------------------------------------------------------------------------
-- Helper lemmas for queryNonCompliantChargerStatus.
-- ---------------------------------------------------------------------------

-- When the warnings file reads successfully the resulting warning set is the
-- previous set extended by the classified tokens, in both branches of the
-- synthesize step.
theorem aux_ncc_warnings (e : Env) (x : PortStatus) (s : String)
    (hs : e.fs (compliancePathOf x.portName) = some s) :
    (queryNonCompliantChargerStatusPort e x).complianceWarnings =
      x.complianceWarnings ++ (tokenize s).filterMap
        (warningOf (e.flagDataComplianceWarning && e.flagInputPowerLimitedWarning)) := by
  simp only [queryNonCompliantChargerStatusPort, hs]
  split <;> rfl

theorem aux_ncc_keep (e : Env) (x : PortStatus) (s : String)
    (hs : e.fs (compliancePathOf x.portName) = some s)
    (hx : x.currentPowerRole ≠ PortPowerRole.NONE) :
    (queryNonCompliantChargerStatusPort e x).currentMode = x.currentMode ∧
    (queryNonCompliantChargerStatusPort e x).currentPowerRole = x.currentPowerRole ∧
    (queryNonCompliantChargerStatusPort e x).currentDataRole = x.currentDataRole := by
  simp only [queryNonCompliantChargerStatusPort, hs]
  rw [if_neg (fun hc => hx hc.2)]
  exact ⟨rfl, rfl, rfl⟩

theorem aux_ncc_synth (e : Env) (x : PortStatus) (s : String)
    (hs : e.fs (compliancePathOf x.portName) = some s)
    (hx : x.currentPowerRole = PortPowerRole.NONE)
    (hw : (queryNonCompliantChargerStatusPort e x).complianceWarnings ≠ []) :
    (queryNonCompliantChargerStatusPort e x).currentMode = PortMode.UFP ∧
    (queryNonCompliantChargerStatusPort e x).currentPowerRole = PortPowerRole.SINK ∧
    (queryNonCompliantChargerStatusPort e x).currentDataRole = PortDataRole.NONE ∧
    (queryNonCompliantChargerStatusPort e x).powerBrickStatus = PowerBrickStatus.CONNECTED := by
  rw [aux_ncc_warnings e x s hs] at hw
  have hpos : 0 < (x.complianceWarnings ++ (tokenize s).filterMap
      (warningOf (e.flagDataComplianceWarning && e.flagInputPowerLimitedWarning))).length :=
    List.length_pos.mpr hw
  simp only [queryNonCompliantChargerStatusPort, hs]
  rw [if_pos ⟨hpos, hx⟩]
  exact ⟨rfl, rfl, rfl, rfl⟩

-- ---------------------------------------------------------------------------
-- C4.
-- ---------------------------------------------------------------------------

/-- C4: compliance-warning tokenization.  Starting from a port with no
warnings, a warnings file reading "[bc12], [missing_rp]" yields the set
{BC_1_2, MISSING_RP}; "[other]" yields {OTHER} when the input-power-limited
feature toggle (the conjunction of the two aconfig flags) is inactive; and
with the toggle active "[input_power_limited]" yields
{INPUT_POWER_LIMITED}. -/
theorem C4_tokenization (p : PortStatus) (e1 e2 e3 : Env)
    (hp : p.complianceWarnings = [])
    (h1 : e1.fs (compliancePathOf p.portName) = some "[bc12], [missing_rp]")
    (h2 : e2.fs (compliancePathOf p.portName) = some "[other]")
    (h2f : (e2.flagDataComplianceWarning && e2.flagInputPowerLimitedWarning) = false)
    (h3 : e3.fs (compliancePathOf p.portName) = some "[input_power_limited]")
    (h3f : (e3.flagDataComplianceWarning && e3.flagInputPowerLimitedWarning) = true) :
    (queryNonCompliantChargerStatusPort e1 p).complianceWarnings =
      [ComplianceWarning.BC_1_2, ComplianceWarning.MISSING_RP] ∧
    (queryNonCompliantChargerStatusPort e2 p).complianceWarnings =
      [ComplianceWarning.OTHER] ∧
    (queryNonCompliantChargerStatusPort e3 p).complianceWarnings =
      [ComplianceWarning.INPUT_POWER_LIMITED] := by
  refine ⟨?_, ?_, ?_⟩
  · rw [aux_ncc_warnings e1 p _ h1, hp]
    cases hb : e1.flagDataComplianceWarning && e1.flagInputPowerLimitedWarning <;> rfl
  · rw [aux_ncc_warnings e2 p _ h2, hp, h2f]
    decide
  · rw [aux_ncc_warnings e3 p _ h3, hp, h3f]
    decide

theorem C4_tokenization_witness :
    (queryNonCompliantChargerStatusPort envC4a portP0).complianceWarnings =
      [ComplianceWarning.BC_1_2, ComplianceWarning.MISSING_RP] ∧
    (queryNonCompliantChargerStatusPort envC4b portP0).complianceWarnings =
      [ComplianceWarning.OTHER] ∧
    (queryNonCompliantChargerStatusPort envC4c portP0).complianceWarnings =
      [ComplianceWarning.INPUT_POWER_LIMITED] :=
  C4_tokenization portP0 envC4a envC4b envC4c (by rfl) (by decide) (by decide)
    (by rfl) (by decide) (by rfl)

-- ---------------------------------------------------------------------------
-- C5.
-- ---------------------------------------------------------------------------

/-- C5: whenever the compliance query leaves a port with a non-empty warning
set while the power role detected for it was NONE, it synthesizes the
connected-sink state (mode UFP, power SINK, data NONE, power brick
CONNECTED); a port with a non-empty warning set but a detected power role
other than NONE keeps its detected roles unchanged.  The last equation shows
the whole-snapshot query is exactly the per-port function mapped over the
vector. -/
theorem C5_synthesized_sink (env envq : Env) (p q : PortStatus) (c cq : String)
    (ps : List PortStatus)
    (hfs : env.fs (compliancePathOf p.portName) = some c)
    (hrole : p.currentPowerRole = PortPowerRole.NONE)
    (hw : (queryNonCompliantChargerStatusPort env p).complianceWarnings ≠ [])
    (hfsq : envq.fs (compliancePathOf q.portName) = some cq)
    (_hwq : (queryNonCompliantChargerStatusPort envq q).complianceWarnings ≠ [])
    (hroleq : q.currentPowerRole ≠ PortPowerRole.NONE) :
    (queryNonCompliantChargerStatusPort env p).currentMode = PortMode.UFP ∧
    (queryNonCompliantChargerStatusPort env p).currentPowerRole = PortPowerRole.SINK ∧
    (queryNonCompliantChargerStatusPort env p).currentDataRole = PortDataRole.NONE ∧
    (queryNonCompliantChargerStatusPort env p).powerBrickStatus =
      PowerBrickStatus.CONNECTED ∧
    (queryNonCompliantChargerStatusPort envq q).currentMode = q.currentMode ∧
    (queryNonCompliantChargerStatusPort envq q).currentPowerRole = q.currentPowerRole ∧
    (queryNonCompliantChargerStatusPort envq q).currentDataRole = q.currentDataRole ∧
    (queryNonCompliantChargerStatus env ps).2 =
      ps.map (queryNonCompliantChargerStatusPort env) := by
  obtain ⟨s1, s2, s3, s4⟩ := aux_ncc_synth env p c hfs hrole hw
  obtain ⟨k1, k2, k3⟩ := aux_ncc_keep envq q cq hfsq hroleq
  exact ⟨s1, s2, s3, s4, k1, k2, k3, rfl⟩

theorem C5_synthesized_sink_witness :
    (queryNonCompliantChargerStatusPort envC4a portP0).currentMode = PortMode.UFP ∧
    (queryNonCompliantChargerStatusPort envC4a portP0).currentPowerRole =
      PortPowerRole.SINK ∧
    (queryNonCompliantChargerStatusPort envC4a portP0).currentDataRole =
      PortDataRole.NONE ∧
    (queryNonCompliantChargerStatusPort envC4a portP0).powerBrickStatus =
      PowerBrickStatus.CONNECTED ∧
    (queryNonCompliantChargerStatusPort envC4a portP0src).currentMode =
      portP0src.currentMode ∧
    (queryNonCompliantChargerStatusPort envC4a portP0src).currentPowerRole =
      portP0src.currentPowerRole ∧
    (queryNonCompliantChargerStatusPort envC4a portP0src).currentDataRole =
      portP0src.currentDataRole ∧
    (queryNonCompliantChargerStatus envC4a [portP0]).2 =
      [portP0].map (queryNonCompliantChargerStatusPort envC4a) :=
  C5_synthesized_sink envC4a envC4a portP0 portP0src
    "[bc12], [missing_rp]" "[bc12], [missing_rp]" [portP0]
    (by decide) (by rfl) (by decide) (by decide) (by decide) (by decide)

-- ---------------------------------------------------------------------------
-- Helper lemmas for the role-switch coordinator.
-- ---------------------------------------------------------------------------

theorem aux_roleNode_ne (port : String) (tag : PortRoleTag) :
    appendRoleNodeHelper port tag ≠ "" := by
  cases tag <;>
  · intro h
    have h2 := congrArg String.length h
    simp [appendRoleNodeHelper, String.length_append] at h2
    exact absurd h2.1.1 (by decide)

-- Writing the default dual-role mode is idempotent on the environment.
theorem aux_drp_idem (e : Env) (port : String) :
    switchToDrp (switchToDrp e port) port = switchToDrp e port := by
  have hne := aux_roleNode_ne port PortRoleTag.mode
  by_cases ho : e.openOk (appendRoleNodeHelper port PortRoleTag.mode) = true
  · have h1 : switchToDrp e port =
        { e with fs := fun q =>
            if q = appendRoleNodeHelper port PortRoleTag.mode then
              some (if e.putsRet (appendRoleNodeHelper port PortRoleTag.mode) = -1
                    then "" else "dual")
            else e.fs q } := by
      unfold switchToDrp
      rw [if_neg hne]
      simp [ho, fputsFile]
    rw [h1]
    unfold switchToDrp
    rw [if_neg hne]
    simp only [ho, fputsFile, if_true]
    congr 1
    funext q
    by_cases hq : q = appendRoleNodeHelper port PortRoleTag.mode <;> simp [hq]
  · have he : switchToDrp e port = e := by
      unfold switchToDrp
      rw [if_neg hne]
      simp [ho]
    rw [he, he]

-- ---------------------------------------------------------------------------
-- C1.
-- ---------------------------------------------------------------------------

/-- C1: a mode switch whose hardware node write succeeds but whose bounded
partner wait ends without observing the partner-attach flag reports ERROR
through the callback and, before returning, writes the default dual-role
mode "dual" to that port's port_type node; writing the default twice leaves
the same end state (idempotent). -/
theorem C1_mode_timeout_drp (usb : UsbState) (env e : Env) (wakes : List (Nat × Wake))
    (now T : Nat) (port : String) (m : PortMode) (tid : Int)
    (hcb : usb.mCallback = true)
    (ho : env.openOk (appendRoleNodeHelper port PortRoleTag.mode) = true)
    (hp : env.putsRet (appendRoleNodeHelper port PortRoleTag.mode) ≠ -1)
    (hw : (modeWaitAux T now wakes).2 = false) :
    (switchRole usb env wakes now T port (PortRole.mode m) tid).2.2 =
      [Notif.roleSwitchStatus port (PortRole.mode m) Status.ERROR tid] ∧
    (switchRole usb env wakes now T port (PortRole.mode m) tid).2.1.fs
      (appendRoleNodeHelper port PortRoleTag.mode) = some "dual" ∧
    switchToDrp (switchToDrp e port) port = switchToDrp e port := by
  have hne := aux_roleNode_ne port PortRoleTag.mode
  have key : switchRole usb env wakes now T port (PortRole.mode m) tid =
      ({ usb with mPartnerUp := false },
       switchToDrp (fputsFile env (convertRoletoString (PortRole.mode m))
         (appendRoleNodeHelper port PortRoleTag.mode)).1 port,
       [Notif.roleSwitchStatus port (PortRole.mode m) Status.ERROR tid]) := by
    unfold switchRole switchMode
    simp [PortRole.tag, hne, ho, fputsFile, hp, hw, hcb]
  refine ⟨by rw [key], ?_, aux_drp_idem e port⟩
  rw [key]
  unfold switchToDrp
  rw [if_neg hne]
  simp [fputsFile, ho, hp]

theorem C1_mode_timeout_drp_witness :
    (switchRole usbCB envG [(3, Wake.timedOut)] 0 5 "port0" (PortRole.mode PortMode.DRP) 0).2.2 =
      [Notif.roleSwitchStatus "port0" (PortRole.mode PortMode.DRP) Status.ERROR 0] ∧
    (switchRole usbCB envG [(3, Wake.timedOut)] 0 5 "port0"
        (PortRole.mode PortMode.DRP) 0).2.1.fs
      (appendRoleNodeHelper "port0" PortRoleTag.mode) = some "dual" ∧
    switchToDrp (switchToDrp envG "port0") "port0" = switchToDrp envG "port0" :=
  C1_mode_timeout_drp usbCB envG envG [(3, Wake.timedOut)] 0 5 "port0" PortMode.DRP 0
    (by rfl) (by rfl) (by decide) (by rfl)

-- ---------------------------------------------------------------------------
-- Preservation lemmas for the snapshot pipeline.
-- ---------------------------------------------------------------------------

theorem aux_writeFile_writeOk (e : Env) (v p : String) :
    (writeFile e v p).1.writeOk = e.writeOk := by
  unfold writeFile
  split <;> rfl

theorem aux_resolveI2c_core (usb : UsbState) (env : Env) :
    (resolveI2c usb env).1.mUsbDataEnabled = usb.mUsbDataEnabled ∧
    (resolveI2c usb env).1.mCallback = usb.mCallback := by
  unfold resolveI2c
  split <;> exact ⟨rfl, rfl⟩

-- Moisture query inversion: the returned state keeps mUsbDataEnabled and
-- mCallback, and no port's usbDataStatus changes.
theorem aux_moisture_inv (usb : UsbState) (env : Env) (ps : List PortStatus)
    (st : Status) (usb1 : UsbState) (ps1 : List PortStatus)
    (h : queryMoistureDetectionStatus usb env ps = some (st, usb1, ps1)) :
    (usb1.mUsbDataEnabled = usb.mUsbDataEnabled ∧ usb1.mCallback = usb.mCallback) ∧
    ps1.map (fun x => x.usbDataStatus) = ps.map (fun x => x.usbDataStatus) := by
  have hr := aux_resolveI2c_core usb env
  cases ps with
  | nil => exact Option.noConfusion h
  | cons p0 rest =>
    cases hb : (resolveI2c usb env).2 with
    | false =>
      simp [queryMoistureDetectionStatus, hb] at h
      obtain ⟨-, h2, h3⟩ := h
      subst h2; subst h3
      exact ⟨⟨by simp [hr.1], by simp [hr.2]⟩, by simp⟩
    | true =>
      cases hfs : env.fs ((resolveI2c usb env).1.mI2cClientPath ++ kContaminantDetectionPath) with
      | none =>
        simp [queryMoistureDetectionStatus, hb, hfs] at h
        obtain ⟨-, h2, h3⟩ := h
        subst h2; subst h3
        exact ⟨⟨by simp [hr.1], by simp [hr.2]⟩, by simp⟩
      | some enabled =>
        by_cases he : trim enabled = "1"
        · cases hst : env.fs ((resolveI2c usb env).1.mI2cClientPath ++ kStatusPath) with
          | none =>
            simp [queryMoistureDetectionStatus, hb, hfs, he, hst] at h
            obtain ⟨-, h2, h3⟩ := h
            subst h2; subst h3
            exact ⟨⟨by simp [hr.1], by simp [hr.2]⟩, by simp⟩
          | some sv =>
            by_cases hsv : trim sv = "1" <;>
            · simp [queryMoistureDetectionStatus, hb, hfs, he, hst, hsv] at h
              obtain ⟨-, h2, h3⟩ := h
              subst h2; subst h3
              exact ⟨⟨by simp [hr.1], by simp [hr.2]⟩, by simp⟩
        · simp [queryMoistureDetectionStatus, hb, hfs, he] at h
          obtain ⟨-, h2, h3⟩ := h
          subst h2; subst h3
          exact ⟨⟨by simp [hr.1], by simp [hr.2]⟩, by simp⟩

theorem aux_power_inv (usb : UsbState) (env : Env) (ps : List PortStatus)
    (st : Status) (usb1 : UsbState) (ps1 : List PortStatus)
    (h : queryPowerTransferStatus usb env ps = some (st, usb1, ps1)) :
    (usb1.mUsbDataEnabled = usb.mUsbDataEnabled ∧ usb1.mCallback = usb.mCallback) ∧
    ps1.map (fun x => x.usbDataStatus) = ps.map (fun x => x.usbDataStatus) := by
  have hr := aux_resolveI2c_core usb env
  cases hb : (resolveI2c usb env).2 with
  | false =>
    simp [queryPowerTransferStatus, hb] at h
    obtain ⟨-, h2, h3⟩ := h
    subst h2; subst h3
    exact ⟨⟨by simp [hr.1], by simp [hr.2]⟩, rfl⟩
  | true =>
    cases hfs : env.fs ((resolveI2c usb env).1.mI2cClientPath ++ kSinkLimitEnable) with
    | none =>
      simp [queryPowerTransferStatus, hb, hfs] at h
      obtain ⟨-, h2, h3⟩ := h
      subst h2; subst h3
      exact ⟨⟨by simp [hr.1], by simp [hr.2]⟩, rfl⟩
    | some enabled =>
      cases ps with
      | nil => simp [queryPowerTransferStatus, hb, hfs] at h
      | cons p0 rest =>
        simp [queryPowerTransferStatus, hb, hfs] at h
        obtain ⟨-, h2, h3⟩ := h
        subst h2; subst h3
        exact ⟨⟨by simp [hr.1], by simp [hr.2]⟩, by simp⟩

theorem aux_ncc_ds_port (e : Env) (x : PortStatus) :
    (queryNonCompliantChargerStatusPort e x).usbDataStatus = x.usbDataStatus := by
  simp only [queryNonCompliantChargerStatusPort]
  cases e.fs (compliancePathOf x.portName) with
  | none => rfl
  | some reasons =>
    repeat' split
    all_goals rfl

theorem aux_ncc_ds (e : Env) (ps : List PortStatus) :
    ((queryNonCompliantChargerStatus e ps).2).map (fun x => x.usbDataStatus) =
      ps.map (fun x => x.usbDataStatus) := by
  simp [queryNonCompliantChargerStatus, aux_ncc_ds_port]

theorem aux_session_ds (usb : UsbState) (env : Env) (ps ps1 : List PortStatus)
    (h : queryUsbDataSession usb env ps = some ps1) :
    ps1.map (fun x => x.usbDataStatus) = ps.map (fun x => x.usbDataStatus) := by
  cases ps with
  | nil => exact Option.noConfusion h
  | cons p0 rest =>
    simp only [queryUsbDataSession, Option.some.injEq] at h
    subst h
    simp

-- Snapshot pipeline inversion: a delivered snapshot comes from a
-- getPortStatusHelper result with the same status, the final state keeps
-- mUsbDataEnabled and mCallback, and usbDataStatus survives the sub-queries.
theorem aux_qvh_inv (usb : UsbState) (env : Env) (input : List PortStatus)
    (usb2 : UsbState) (st : Status) (ps : List PortStatus) (qn : List Notif)
    (h : queryVersionHelper usb env input = some (usb2, st, ps, qn)) :
    ∃ ps1, getPortStatusHelper usb env input = some (st, ps1) ∧
      (usb2.mUsbDataEnabled = usb.mUsbDataEnabled ∧ usb2.mCallback = usb.mCallback) ∧
      ps.map (fun x => x.usbDataStatus) = ps1.map (fun x => x.usbDataStatus) ∧
      qn = (if usb2.mCallback = true then [Notif.portStatusChange ps st] else []) := by
  unfold queryVersionHelper at h
  cases hg : getPortStatusHelper usb env input with
  | none => rw [hg] at h; exact Option.noConfusion h
  | some v =>
    obtain ⟨st0, ps1⟩ := v
    simp only [hg] at h
    cases hm : queryMoistureDetectionStatus usb env ps1 with
    | none => rw [hm] at h; exact Option.noConfusion h
    | some m =>
      obtain ⟨stM, usbM, ps2⟩ := m
      simp only [hm] at h
      cases hp : queryPowerTransferStatus usbM env ps2 with
      | none => rw [hp] at h; exact Option.noConfusion h
      | some w =>
        obtain ⟨stP, usbP, ps3⟩ := w
        simp only [hp] at h
        cases hs : queryUsbDataSession usbP env
            (queryNonCompliantChargerStatus env ps3).2 with
        | none => rw [hs] at h; exact Option.noConfusion h
        | some ps5 =>
          simp only [hs, Option.some.injEq, Prod.mk.injEq] at h
          obtain ⟨hu, hst, hps, hqn⟩ := h
          subst hu; subst hst; subst hps
          have cm := aux_moisture_inv usb env ps1 stM usbM ps2 hm
          have cp := aux_power_inv usbM env ps2 stP usbP ps3 hp
          have cs := aux_session_ds usbP env _ ps5 hs
          refine ⟨ps1, rfl, ⟨cp.1.1.trans cm.1.1, cp.1.2.trans cm.1.2⟩, ?_, hqn.symm⟩
          rw [cs, aux_ncc_ds, cp.2, cm.2]

theorem aux_qvh_core (usb : UsbState) (env : Env) (input : List PortStatus)
    (usb2 : UsbState) (st : Status) (ps : List PortStatus) (qn : List Notif)
    (h : queryVersionHelper usb env input = some (usb2, st, ps, qn)) :
    usb2.mUsbDataEnabled = usb.mUsbDataEnabled ∧ usb2.mCallback = usb.mCallback := by
  obtain ⟨-, -, hc, -, -⟩ := aux_qvh_inv usb env input usb2 st ps qn h
  exact hc

-- A SUCCESS outcome of getPortStatusHelper comes from a completed loop.
theorem aux_gpsh_success (usb : UsbState) (env : Env) (input ps : List PortStatus)
    (h : getPortStatusHelper usb env input = some (Status.SUCCESS, ps)) :
    ∃ names, portsLoop usb env names = PortsRes.ok ps := by
  unfold getPortStatusHelper at h
  cases ht : getTypeCPortNamesHelper env.typecListing with
  | mk st0 names =>
    rw [ht] at h
    cases st0 with
    | SUCCESS =>
      cases hl : portsLoop usb env names with
      | abort => simp [hl] at h
      | fail ps' => simp [hl] at h
      | ok ps' =>
        simp [hl] at h
        exact ⟨names, by rw [hl, h]⟩
    | ERROR => simp at h
    | NOT_SUPPORTED => simp at h
    | UNRECOGNIZED_ROLE => simp at h

-- Every entry of a completed loop is a fully processed port.
theorem aux_portsLoop_ok (usb : UsbState) (env : Env) :
    ∀ (names : List (String × Bool)) (ps : List PortStatus),
      portsLoop usb env names = PortsRes.ok ps →
      ∀ p ∈ ps, ∃ nm, processOnePort usb env nm = PortRes.ok p := by
  intro names
  induction names with
  | nil =>
    intro ps h p hp
    simp only [portsLoop, PortsRes.ok.injEq] at h
    subst h
    simp at hp
  | cons nm rest ih =>
    intro ps h p hp
    cases hpp : processOnePort usb env nm with
    | abort => simp [portsLoop, hpp] at h
    | fail q => simp [portsLoop, hpp] at h
    | ok q =>
      cases hrest : portsLoop usb env rest with
      | abort => simp [portsLoop, hpp, hrest] at h
      | fail qs => simp [portsLoop, hpp, hrest] at h
      | ok qs =>
        simp only [portsLoop, hpp, hrest, PortsRes.ok.injEq] at h
        subst h
        rcases List.mem_cons.mp hp with hp | hp
        · exact ⟨nm, by rw [hpp, hp]⟩
        · exact ih qs hrest p hp

-- With the data-enable flag cleared, the data-status block of the loop body
-- records DISABLED_FORCE and cannot record ENABLED.
theorem aux_finishPort_force (usb : UsbState) (env : Env) (c : Bool) (p4 p : PortStatus)
    (hd : usb.mUsbDataEnabled = false)
    (h : finishPort usb env c p4 = PortRes.ok p) :
    UsbDataStatus.DISABLED_FORCE ∈ p.usbDataStatus ∧
    (UsbDataStatus.ENABLED ∈ p.usbDataStatus → UsbDataStatus.ENABLED ∈ p4.usbDataStatus) := by
  cases hfs : env.fs kPogoUsbActive with
  | none =>
    simp only [finishPort, hfs, hd, Bool.not_false, Bool.and_false, if_true] at h
    injection h with h
    rw [← h]
    refine ⟨by simp, fun hE => by simpa using hE⟩
  | some s =>
    cases hk : stoiOpt (trim s) with
    | none => simp [finishPort, hfs, hk] at h
    | some k =>
      by_cases hk1 : k = 1 <;>
      · simp only [finishPort, hfs, hk, hk1, hd] at h
        injection h with h
        rw [← h]
        refine ⟨by simp, fun hE => by simpa [hk1] using hE⟩

theorem aux_processOnePort_force (usb : UsbState) (env : Env) (nm : String × Bool)
    (p : PortStatus) (hd : usb.mUsbDataEnabled = false)
    (h : processOnePort usb env nm = PortRes.ok p) :
    UsbDataStatus.DISABLED_FORCE ∈ p.usbDataStatus ∧
    UsbDataStatus.ENABLED ∉ p.usbDataStatus := by
  unfold processOnePort at h
  cases h1 : getCurrentRoleHelper env nm.1 nm.2 PortRoleTag.powerRole with
  | mk st1 r1 =>
    rw [h1] at h
    cases st1
    case ERROR => simp at h
    case NOT_SUPPORTED => simp at h
    case UNRECOGNIZED_ROLE => simp at h
    case SUCCESS =>
    cases r1
    case dataRole v => simp [PortRole.getPower] at h
    case mode v => simp [PortRole.getPower] at h
    case powerRole v1 =>
    cases h2 : getCurrentRoleHelper env nm.1 nm.2 PortRoleTag.dataRole with
    | mk st2 r2 =>
      rw [h2] at h
      cases st2
      case ERROR => simp [PortRole.getPower] at h
      case NOT_SUPPORTED => simp [PortRole.getPower] at h
      case UNRECOGNIZED_ROLE => simp [PortRole.getPower] at h
      case SUCCESS =>
      cases r2
      case powerRole v => simp [PortRole.getPower, PortRole.getData] at h
      case mode v => simp [PortRole.getPower, PortRole.getData] at h
      case dataRole v2 =>
      cases h3 : getCurrentRoleHelper env nm.1 nm.2 PortRoleTag.mode with
      | mk st3 r3 =>
        rw [h3] at h
        cases st3
        case ERROR => simp [PortRole.getPower, PortRole.getData] at h
        case NOT_SUPPORTED => simp [PortRole.getPower, PortRole.getData] at h
        case UNRECOGNIZED_ROLE => simp [PortRole.getPower, PortRole.getData] at h
        case SUCCESS =>
        cases r3
        case powerRole v => simp [PortRole.getPower, PortRole.getData, PortRole.getMode] at h
        case dataRole v => simp [PortRole.getPower, PortRole.getData, PortRole.getMode] at h
        case mode v3 =>
        simp only [PortRole.getPower, PortRole.getData, PortRole.getMode] at h
        obtain ⟨f1, f2⟩ := aux_finishPort_force usb env nm.2 _ p hd h
        refine ⟨f1, fun hE => ?_⟩
        have h4 := f2 hE
        simp at h4

-- The force-disable fact lifted through the whole snapshot pipeline.
theorem aux_qvh_force (usb : UsbState) (env : Env) (usb2 : UsbState)
    (ps : List PortStatus) (qn : List Notif)
    (hd : usb.mUsbDataEnabled = false)
    (h : queryVersionHelper usb env [] = some (usb2, Status.SUCCESS, ps, qn)) :
    ∀ p ∈ ps, UsbDataStatus.DISABLED_FORCE ∈ p.usbDataStatus ∧
      UsbDataStatus.ENABLED ∉ p.usbDataStatus := by
  obtain ⟨ps1, hg, -, hds, -⟩ := aux_qvh_inv usb env [] usb2 Status.SUCCESS ps qn h
  obtain ⟨names, hloop⟩ := aux_gpsh_success usb env [] ps1 hg
  intro p hp
  have hmem : p.usbDataStatus ∈ ps1.map (fun x => x.usbDataStatus) := by
    rw [← hds]
    exact List.mem_map_of_mem _ hp
  obtain ⟨p1, hp1, hus⟩ := List.mem_map.mp hmem
  obtain ⟨nm, hnm⟩ := aux_portsLoop_ok usb env names ps1 hloop p1 hp1
  obtain ⟨f1, f2⟩ := aux_processOnePort_force usb env nm p1 hd hnm
  exact ⟨hus ▸ f1, hus ▸ f2⟩

theorem aux_rsq_usb_core (usb : UsbState) (env : Env) (pre : List Notif) :
    (runStatusQuery usb env pre).usb.mUsbDataEnabled = usb.mUsbDataEnabled ∧
    (runStatusQuery usb env pre).usb.mCallback = usb.mCallback := by
  unfold runStatusQuery
  cases hq : queryVersionHelper usb env [] with
  | none => exact ⟨rfl, rfl⟩
  | some v =>
    obtain ⟨u2, st, ps, qn⟩ := v
    have hc := aux_qvh_core usb env [] u2 st ps qn hq
    exact ⟨hc.1, hc.2⟩

-- A fully successful enableUsbData(port, false, tid) clears the data-enable
-- flag, and the flag survives the trailing recomputation.
theorem aux_enable_false (usb : UsbState) (env : Env) (port : String) (tid : Int)
    (hw1 : env.writeOk PULLUP_PATH = true) (hw2 : env.writeOk ID_PATH = true)
    (hw3 : env.writeOk VBUS_PATH = true) (hw4 : env.writeOk USB_DATA_PATH = true) :
    (enableUsbData usb env port false tid).usb.mUsbDataEnabled = false := by
  have hrsq : ∀ (u : UsbState) (e : Env) (pre : List Notif),
      (runStatusQuery u e pre).usb.mUsbDataEnabled = u.mUsbDataEnabled :=
    fun u e pre => (aux_rsq_usb_core u e pre).1
  unfold enableUsbData
  cases hf : env.fs PULLUP_PATH with
  | none => simp [hf, writeFile, hw1, hw2, hw3, hw4, hrsq]
  | some pullup =>
    by_cases hg : trim pullup = kGadgetName <;>
      simp [hf, hg, writeFile, hw1, hw2, hw3, hw4, hrsq]

-- ---------------------------------------------------------------------------
-- C7.
-- ---------------------------------------------------------------------------

/-- C7 counterexample: the unconditional claim is false on a reachable run.
In envC7x every node write succeeds, so enableUsbData(port0, false, 0)
completes successfully and clears mUsbDataEnabled; yet the immediately
following queryPortStatus — port0 is connected and its power_role read
fails, so the per-port loop stops via the goto done path — still delivers
a portStatusChange notification (the run does not abort) whose snapshot
carries status ERROR and contains the port0 entry left with an empty USB
data status set: DISABLED_FORCE is absent from it. -/
theorem C7_force_disabled_cex :
    (enableUsbData usbCB envC7x "port0" false 0).usb.mUsbDataEnabled = false ∧
    opC7x.aborted = false ∧
    Notif.portStatusChange psC7x Status.ERROR ∈ opC7x.notifs ∧
    pC7x ∈ psC7x ∧
    pC7x.portName = "port0" ∧
    UsbDataStatus.DISABLED_FORCE ∉ pC7x.usbDataStatus := by
  decide

/-- C7 (amended): after a successful enableUsbData(port, false, tid) — all
four node writes succeed — an immediately following queryPortStatus
delivers a snapshot (the portStatusChange notification) in which, when the
port enumeration succeeded (snapshot status SUCCESS), every port's USB
data status set contains DISABLED_FORCE and does not contain ENABLED;
when a per-port role sub-query fails mid-loop the delivered ERROR snapshot
can leave a port's data status set empty (see the counterexample). -/
theorem C7_force_disabled (usb : UsbState) (env1 env2 : Env) (port : String)
    (tid tid2 : Int) (ps : List PortStatus) (st : Status) (p : PortStatus)
    (hw1 : env1.writeOk PULLUP_PATH = true) (hw2 : env1.writeOk ID_PATH = true)
    (hw3 : env1.writeOk VBUS_PATH = true) (hw4 : env1.writeOk USB_DATA_PATH = true)
    (hmem : Notif.portStatusChange ps st ∈
      (queryPortStatusOp (enableUsbData usb env1 port false tid).usb env2 tid2).notifs)
    (hst : st = Status.SUCCESS) (hp : p ∈ ps) :
    UsbDataStatus.DISABLED_FORCE ∈ p.usbDataStatus ∧
    UsbDataStatus.ENABLED ∉ p.usbDataStatus := by
  subst hst
  have hE := aux_enable_false usb env1 port tid hw1 hw2 hw3 hw4
  unfold queryPortStatusOp at hmem
  cases hq : queryVersionHelper (enableUsbData usb env1 port false tid).usb env2 [] with
  | none =>
    rw [hq] at hmem
    simp at hmem
  | some v =>
    obtain ⟨usbq, stq, psq, qn⟩ := v
    rw [hq] at hmem
    obtain ⟨-, -, -, -, hqn⟩ :=
      aux_qvh_inv (enableUsbData usb env1 port false tid).usb env2 [] usbq stq psq qn hq
    subst hqn
    simp only [List.mem_append] at hmem
    rcases hmem with hmem | hmem
    · have hps : ps = psq ∧ Status.SUCCESS = stq := by
        rcases Bool.eq_false_or_eq_true usbq.mCallback with hcb | hcb <;> simp [hcb] at hmem
        exact ⟨hmem.1, hmem.2⟩
      obtain ⟨hps1, hps2⟩ := hps
      subst hps1
      rw [← hps2] at hq
      exact aux_qvh_force _ env2 usbq ps _ hE hq p hp
    · rcases Bool.eq_false_or_eq_true usbq.mCallback with hcb | hcb <;> simp [hcb] at hmem

theorem C7_force_disabled_witness :
    UsbDataStatus.DISABLED_FORCE ∈ pC7.usbDataStatus ∧
    UsbDataStatus.ENABLED ∉ pC7.usbDataStatus :=
  C7_force_disabled usbCB envG envG "port0" 0 1 psC7 Status.SUCCESS pC7
    (by rfl) (by rfl) (by rfl) (by rfl) (by decide) (by rfl) (by decide)

-- ---------------------------------------------------------------------------
-- Notification-delivery lemmas (C8).
-- ---------------------------------------------------------------------------

theorem aux_ite_mCallback (c : Prop) [Decidable c] (usb : UsbState) (b : Bool) :
    (if c then { usb with mUsbDataEnabled := b } else usb).mCallback = usb.mCallback := by
  split <;> rfl

theorem aux_switchMode_mCallback (usb : UsbState) (env : Env) (wakes : List (Nat × Wake))
    (now T : Nat) (port : String) (role : PortRole) :
    (switchMode usb env wakes now T port role).2.1.mCallback = usb.mCallback := by
  unfold switchMode
  by_cases h1 : appendRoleNodeHelper port role.tag = ""
  all_goals simp only [h1, if_true, if_false, ite_true, ite_false]
  all_goals repeat' split
  all_goals rfl

theorem aux_rsq_any (usb : UsbState) (env : Env) (pre : List Notif) (f : Notif → Bool)
    (h : pre.any f = true) :
    (runStatusQuery usb env pre).notifs.any f = true := by
  unfold runStatusQuery
  cases queryVersionHelper usb env [] with
  | none => exact h
  | some v =>
    obtain ⟨a, b, c, qn⟩ := v
    simp [List.any_append, h]

theorem aux_rsq_empty (usb : UsbState) (env : Env) (hcb : usb.mCallback = false) :
    (runStatusQuery usb env []).notifs = [] := by
  unfold runStatusQuery
  cases hq : queryVersionHelper usb env [] with
  | none => rfl
  | some v =>
    obtain ⟨u2, st, ps, qn⟩ := v
    obtain ⟨-, -, -, -, hqn⟩ := aux_qvh_inv usb env [] u2 st ps qn hq
    have hc := (aux_qvh_core usb env [] u2 st ps qn hq).2
    subst hqn
    simp [hc, hcb]

theorem aux_rsq_empty_pre (usb : UsbState) (env : Env) (pre : List Notif)
    (hcb : usb.mCallback = false) (hpre : pre = []) :
    (runStatusQuery usb env pre).notifs = [] := by
  subst hpre
  exact aux_rsq_empty usb env hcb

theorem aux_switchRole_notify (usb : UsbState) (env : Env) (wakes : List (Nat × Wake))
    (now T : Nat) (port : String) (role : PortRole) (tid : Int)
    (hcb : usb.mCallback = true) :
    (switchRole usb env wakes now T port role tid).2.2.any isRoleSwitchNotif = true := by
  unfold switchRole
  rw [if_neg (aux_roleNode_ne port role.tag)]
  by_cases ht : role.tag = PortRoleTag.mode
  · simp [ht, aux_switchMode_mCallback, hcb, isRoleSwitchNotif]
  · by_cases ho : env.openOk (appendRoleNodeHelper port role.tag) = true
    · by_cases hw : (fputsFile env (convertRoletoString role)
          (appendRoleNodeHelper port role.tag)).2 = -1
      · simp [ht, ho, hw, hcb, isRoleSwitchNotif]
      · cases hfs : (fputsFile env (convertRoletoString role)
            (appendRoleNodeHelper port role.tag)).1.fs
            (appendRoleNodeHelper port role.tag) with
        | some contents => simp [ht, ho, hw, hfs, hcb, isRoleSwitchNotif]
        | none => simp [ht, ho, hw, hfs, hcb, isRoleSwitchNotif]
    · simp [ht, ho, hcb, isRoleSwitchNotif]

theorem aux_switchRole_empty (usb : UsbState) (env : Env) (wakes : List (Nat × Wake))
    (now T : Nat) (port : String) (role : PortRole) (tid : Int)
    (hcb : usb.mCallback = false) :
    (switchRole usb env wakes now T port role tid).2.2 = [] := by
  unfold switchRole
  rw [if_neg (aux_roleNode_ne port role.tag)]
  by_cases ht : role.tag = PortRoleTag.mode
  · simp [ht, aux_switchMode_mCallback, hcb]
  · by_cases ho : env.openOk (appendRoleNodeHelper port role.tag) = true
    · by_cases hw : (fputsFile env (convertRoletoString role)
          (appendRoleNodeHelper port role.tag)).2 = -1
      · simp [ht, ho, hw, hcb]
      · cases hfs : (fputsFile env (convertRoletoString role)
            (appendRoleNodeHelper port role.tag)).1.fs
            (appendRoleNodeHelper port role.tag) with
        | some contents => simp [ht, ho, hw, hfs, hcb]
        | none => simp [ht, ho, hw, hfs, hcb]
    · simp [ht, ho, hcb]

theorem aux_enable_notify (usb : UsbState) (env : Env) (port : String) (enable : Bool)
    (tid : Int) (hcb : usb.mCallback = true) :
    (enableUsbData usb env port enable tid).notifs.any isEnableUsbDataNotif = true := by
  unfold enableUsbData
  apply aux_rsq_any
  rw [aux_ite_mCallback, hcb]
  rfl

theorem aux_enable_empty (usb : UsbState) (env : Env) (port : String) (enable : Bool)
    (tid : Int) (hcb : usb.mCallback = false) :
    (enableUsbData usb env port enable tid).notifs = [] := by
  unfold enableUsbData
  refine aux_rsq_empty_pre _ _ _ ((aux_ite_mCallback _ _ _).trans hcb) ?_
  rw [aux_ite_mCallback, hcb]
  rfl

theorem aux_docked_notify (usb : UsbState) (env : Env) (port : String) (tid : Int)
    (hcb : usb.mCallback = true) :
    (enableUsbDataWhileDocked usb env port tid).notifs.any isEnableDockedNotif = true := by
  unfold enableUsbDataWhileDocked
  apply aux_rsq_any
  simp [hcb, isEnableDockedNotif]

theorem aux_docked_empty (usb : UsbState) (env : Env) (port : String) (tid : Int)
    (hcb : usb.mCallback = false) :
    (enableUsbDataWhileDocked usb env port tid).notifs = [] := by
  unfold enableUsbDataWhileDocked
  simp only [hcb]
  exact aux_rsq_empty _ _ hcb

theorem aux_reset_notify (usb : UsbState) (env : Env) (port : String) (tid : Int)
    (hcb : usb.mCallback = true) :
    (resetUsbPort usb env port tid).notifs.any isResetNotif = true := by
  unfold resetUsbPort
  simp [hcb, isResetNotif]

theorem aux_reset_empty (usb : UsbState) (env : Env) (port : String) (tid : Int)
    (hcb : usb.mCallback = false) :
    (resetUsbPort usb env port tid).notifs = [] := by
  unfold resetUsbPort
  simp [hcb]

theorem aux_limit_notify (usb : UsbState) (env : Env) (port : String) (limit : Bool)
    (tid : Int) (hcb : usb.mCallback = true) (hi2c : usb.mI2cClientPath ≠ "")
    (htid : 0 ≤ tid) :
    (limitPowerTransfer usb env port limit tid).notifs.any
      isLimitPowerTransferNotif = true := by
  unfold limitPowerTransfer
  simp only [resolveI2c, hi2c, if_neg hi2c]
  apply aux_rsq_any
  simp [hcb, htid, isLimitPowerTransferNotif]

theorem aux_limit_empty (usb : UsbState) (env : Env) (port : String) (limit : Bool)
    (tid : Int) (hcb : usb.mCallback = false) :
    (limitPowerTransfer usb env port limit tid).notifs = [] := by
  unfold limitPowerTransfer
  have hc := (aux_resolveI2c_core usb env).2
  cases hb : (resolveI2c usb env).2 with
  | false => simp [hb]
  | true =>
    simp only [hb, Bool.not_true]
    rw [hc, hcb]
    exact aux_rsq_empty _ _ (hc.trans hcb)

theorem aux_contaminant_notify (usb : UsbState) (env : Env) (port : String)
    (enable : Bool) (tid : Int) (hcb : usb.mCallback = true) :
    (enableContaminantPresenceDetection usb env port enable tid).notifs.any
      isContaminantNotif = true := by
  unfold enableContaminantPresenceDetection
  apply aux_rsq_any
  simp [hcb, isContaminantNotif]

theorem aux_contaminant_empty (usb : UsbState) (env : Env) (port : String)
    (enable : Bool) (tid : Int) (hcb : usb.mCallback = false) :
    (enableContaminantPresenceDetection usb env port enable tid).notifs = [] := by
  unfold enableContaminantPresenceDetection
  simp only [hcb]
  exact aux_rsq_empty _ _ hcb

theorem aux_query_notify (usb : UsbState) (env : Env) (tid : Int)
    (hcb : usb.mCallback = true) (hq : queryVersionHelper usb env [] ≠ none) :
    (queryPortStatusOp usb env tid).notifs.any isQueryNotif = true := by
  unfold queryPortStatusOp
  cases hqe : queryVersionHelper usb env [] with
  | none => exact absurd hqe hq
  | some v =>
    obtain ⟨u2, st, ps, qn⟩ := v
    have hc := (aux_qvh_core usb env [] u2 st ps qn hqe).2
    simp [List.any_append, hc, hcb, isQueryNotif]

theorem aux_query_empty (usb : UsbState) (env : Env) (tid : Int)
    (hcb : usb.mCallback = false) :
    (queryPortStatusOp usb env tid).notifs = [] := by
  unfold queryPortStatusOp
  cases hqe : queryVersionHelper usb env [] with
  | none => rfl
  | some v =>
    obtain ⟨u2, st, ps, qn⟩ := v
    obtain ⟨-, -, -, -, hqn⟩ := aux_qvh_inv usb env [] u2 st ps qn hqe
    have hc := (aux_qvh_core usb env [] u2 st ps qn hqe).2
    subst hqn
    simp [hc, hcb]

-- ---------------------------------------------------------------------------
-- C8.
-- ---------------------------------------------------------------------------

/-- C8 counterexample: with a subscriber registered and a resolvable i2c
client path, limitPowerTransfer invoked with transaction id -1 performs its
writes and its trailing recomputation (exactly one notification, the
snapshot change) but never delivers a limit-power-transfer outcome through
the per-operation callback — refuting "for every transaction identifier". -/
theorem C8_notify_cex :
    usbCB.mCallback = true ∧
    (limitPowerTransfer usbCB envG "port0" true (-1)).notifs.length = 1 ∧
    ((limitPowerTransfer usbCB envG "port0" true (-1)).notifs.all
      (fun n => !(isLimitPowerTransferNotif n))) = true := by
  exact ⟨rfl, by decide, by decide⟩

/-- C8 (amended): every caller-initiated operation reports its outcome
through its per-operation notification callback whenever a subscriber is
registered, EXCEPT that limitPowerTransfer requires in addition a
non-negative transaction identifier and a resolvable i2c client path
(otherwise it returns without notifying), and queryPortStatus notifies only
when the snapshot computation completes without aborting; when no
subscriber is registered, every operation's outcome is dropped (no callback
invocation at all). -/
theorem C8_notify_amended (usbA usbB : UsbState) (env : Env) (port : String)
    (role : PortRole) (limit enable : Bool) (tid : Int)
    (wakes : List (Nat × Wake)) (now T : Nat)
    (hA : usbA.mCallback = true) (hB : usbB.mCallback = false)
    (hi2c : usbA.mI2cClientPath ≠ "") (htid : 0 ≤ tid)
    (hq : queryVersionHelper usbA env [] ≠ none) :
    ((switchRole usbA env wakes now T port role tid).2.2.any isRoleSwitchNotif = true ∧
     (enableUsbData usbA env port enable tid).notifs.any isEnableUsbDataNotif = true ∧
     (enableUsbDataWhileDocked usbA env port tid).notifs.any isEnableDockedNotif = true ∧
     (resetUsbPort usbA env port tid).notifs.any isResetNotif = true ∧
     (limitPowerTransfer usbA env port limit tid).notifs.any
       isLimitPowerTransferNotif = true ∧
     (enableContaminantPresenceDetection usbA env port enable tid).notifs.any
       isContaminantNotif = true ∧
     (queryPortStatusOp usbA env tid).notifs.any isQueryNotif = true) ∧
    ((switchRole usbB env wakes now T port role tid).2.2 = [] ∧
     (enableUsbData usbB env port enable tid).notifs = [] ∧
     (enableUsbDataWhileDocked usbB env port tid).notifs = [] ∧
     (resetUsbPort usbB env port tid).notifs = [] ∧
     (limitPowerTransfer usbB env port limit tid).notifs = [] ∧
     (enableContaminantPresenceDetection usbB env port enable tid).notifs = [] ∧
     (queryPortStatusOp usbB env tid).notifs = []) :=
  ⟨⟨aux_switchRole_notify usbA env wakes now T port role tid hA,
    aux_enable_notify usbA env port enable tid hA,
    aux_docked_notify usbA env port tid hA,
    aux_reset_notify usbA env port tid hA,
    aux_limit_notify usbA env port limit tid hA hi2c htid,
    aux_contaminant_notify usbA env port enable tid hA,
    aux_query_notify usbA env tid hA hq⟩,
   ⟨aux_switchRole_empty usbB env wakes now T port role tid hB,
    aux_enable_empty usbB env port enable tid hB,
    aux_docked_empty usbB env port tid hB,
    aux_reset_empty usbB env port tid hB,
    aux_limit_empty usbB env port limit tid hB,
    aux_contaminant_empty usbB env port enable tid hB,
    aux_query_empty usbB env tid hB⟩⟩

theorem C8_notify_amended_witness :
    ((switchRole usbCB envG [] 0 5 "port0" (PortRole.powerRole PortPowerRole.SOURCE)
        0).2.2.any isRoleSwitchNotif = true ∧
     (enableUsbData usbCB envG "port0" true 0).notifs.any isEnableUsbDataNotif = true ∧
     (enableUsbDataWhileDocked usbCB envG "port0" 0).notifs.any
       isEnableDockedNotif = true ∧
     (resetUsbPort usbCB envG "port0" 0).notifs.any isResetNotif = true ∧
     (limitPowerTransfer usbCB envG "port0" true 0).notifs.any
       isLimitPowerTransferNotif = true ∧
     (enableContaminantPresenceDetection usbCB envG "port0" true 0).notifs.any
       isContaminantNotif = true ∧
     (queryPortStatusOp usbCB envG 0).notifs.any isQueryNotif = true) ∧
    ((switchRole usbNoCB envG [] 0 5 "port0" (PortRole.powerRole PortPowerRole.SOURCE)
        0).2.2 = [] ∧
     (enableUsbData usbNoCB envG "port0" true 0).notifs = [] ∧
     (enableUsbDataWhileDocked usbNoCB envG "port0" 0).notifs = [] ∧
     (resetUsbPort usbNoCB envG "port0" 0).notifs = [] ∧
     (limitPowerTransfer usbNoCB envG "port0" true 0).notifs = [] ∧
     (enableContaminantPresenceDetection usbNoCB envG "port0" true 0).notifs = [] ∧
     (queryPortStatusOp usbNoCB envG 0).notifs = []) :=
  C8_notify_amended usbCB usbNoCB envG "port0" (PortRole.powerRole PortPowerRole.SOURCE)
    true true 0 [] 0 5 (by rfl) (by rfl) (by decide) (by decide) (by decide)

-- ---------------------------------------------------------------------------
-- C9 witness.
-- ---------------------------------------------------------------------------

theorem C9_partner_frame_witness :
    processSegment usbCB envG true "add@/port0-partner" =
      { usb := { usbCB with mPartnerUp := true, partnerSignals := usbCB.partnerSignals + 1 }
        env := envG, notifs := [], recomputed := false, aborted := false, stop := false } :=
  C9_partner_frame usbCB envG true "add@/port0-partner" (by decide)

end UsbHal
